import Mathlib

/-!
# Shallow embedding of the `cpp_engine` Pokemon TCG rules engine

This file embeds the data model and the claim-relevant operations of the
C++ engine (`src/cpp_engine`) as executable Lean definitions, and proves
or refutes the frozen specification claims about them.

Conventions used throughout:

* C++ `std::string` is `String`; `std::optional<T>` is `Option T`;
  `std::vector<T>` is `List T` (front of the vector = head of the list).
* `std::unordered_map<K, V>` is an association list `List (K × V)`; lookups
  ignore order, and every embedded use is order-insensitive (conjunctive
  filters, additive counters).
* `std::unordered_set<String>` is a `List String` with membership-guarded
  insertion.
* The resolution stack is a `List ResolutionStep` whose HEAD is the top of
  the stack (the C++ code uses `vector::back()` as the top).
* Machine `int` fields are `Int`; sizes that C++ casts to `int` are cast
  with `Int.ofNat`.
* Registry callbacks (`std::function` values) become Lean functions taking
  the state and returning the mutated state where the C++ callback mutates
  through a reference.
* `std::mt19937` state is abstracted as a `Nat`; `std::shuffle` (whose
  exact permutation is implementation-defined) is a parameter
  `Nat → List CardInstance → List CardInstance × Nat` consuming and
  advancing that state.  A concrete instantiation `modelShuffle` is used
  for concrete evaluations.
-/

namespace PokemonTCG

/-- `EnergyType` from `types.hpp`. -/
inductive EnergyType where
  | grass | fire | water | lightning | psychic
  | fighting | darkness | metal | colorless
deriving DecidableEq, Repr

/-- The nine energy types, used to fold over the buckets of an
`unordered_map<EnergyType, int>`. -/
def EnergyType.all : List EnergyType :=
  [.grass, .fire, .water, .lightning, .psychic, .fighting, .darkness, .metal, .colorless]

/-- `Supertype` from `types.hpp`. -/
inductive Supertype where
  | pokemon | trainer | energy
deriving DecidableEq, Repr

/-- `Subtype` from `types.hpp` (with the `SPECIAL` tag referenced by
`card_database.cpp`). -/
inductive Subtype where
  | basic | stage1 | stage2 | tera | ex | vstar | mega | v | vmax | gx
  | ancient | future | item | supporter | stadium | tool | aceSpec | special
deriving DecidableEq, Repr

/-- `StatusCondition` from `types.hpp`. -/
inductive StatusCondition where
  | poisoned | burned | asleep | paralyzed | confused
deriving DecidableEq, Repr

/-- `GamePhase` from `types.hpp`. -/
inductive GamePhase where
  | setup | mulligan | draw | main | attack | cleanup | «end» | suddenDeath
deriving DecidableEq, Repr

/-- `GameResult` from `types.hpp`. -/
inductive GameResult where
  | ongoing | player0Win | player1Win | «draw»
deriving DecidableEq, Repr

/-- `ActionType` from `types.hpp`. -/
inductive ActionType where
  | mulliganDraw | revealHandMulligan | placeActive | placeBench
  | playBasic | evolve | attachEnergy | playItem | playSupporter
  | playStadium | attachTool | useAbility | retreat
  | attack | endTurn
  | takePrize | promoteActive | discardBench
  | searchSelectCount | searchSelectCard | searchConfirm | interruptAttachEnergy
  | selectCard | confirmSelection | cancelAction
  | coinFlip | shuffleAction
deriving DecidableEq, Repr

/-- `StepType` from `types.hpp`. -/
inductive StepType where
  | selectFromZone | searchDeck | attachToTarget | evolveTarget
deriving DecidableEq, Repr

/-- `SelectionPurpose` from `types.hpp`. -/
inductive SelectionPurpose where
  | discardCost | searchTarget | evolutionBase | evolutionStage
  | attachTarget | benchTarget | energyToAttach | switchTarget
  | recoverToDeck | recoverToHand | discardFromPlay
deriving DecidableEq, Repr

/-- `ZoneType` from `types.hpp`. -/
inductive ZoneType where
  | hand | deck | bench | active | board | discard
deriving DecidableEq, Repr

/-- `AttackDef` from `card_database.hpp`. -/
structure AttackDef where
  name : String
  cost : List EnergyType
  converted_energy_cost : Int := 0
  base_damage : Int := 0
  damage_modifier : String := ""
  text : String := ""
deriving DecidableEq, Repr

/-- `AbilityDef` from `card_database.hpp`. -/
structure AbilityDef where
  name : String
  text : String := ""
  ability_type : String := ""
  category : String := ""
  is_activatable : Bool := false
  modifier_type : String := ""
  guard_type : String := ""
  trigger : String := ""
  effect_type : String := ""
  scope : String := "self"
deriving DecidableEq, Repr

/-- `CardDef` from `card_database.hpp` (immutable card definition). -/
structure CardDef where
  card_id : String
  name : String
  supertype : Supertype
  subtypes : List Subtype := []
  hp : Int := 0
  types : List EnergyType := []
  weakness : Option EnergyType := none
  weakness_multiplier : Int := 2
  resistance : Option EnergyType := none
  resistance_value : Int := -30
  retreat_cost : Int := 0
  evolves_from : Option String := none
  attacks : List AttackDef := []
  abilities : List AbilityDef := []
  is_basic_energy : Bool := false
  energy_type : EnergyType := .colorless
  provides : List EnergyType := []
  rules_text : String := ""
deriving DecidableEq, Repr

/-- `CardDef::is_pokemon`. -/
def CardDef.is_pokemon (d : CardDef) : Bool := d.supertype = Supertype.pokemon

/-- `CardDef::is_trainer`. -/
def CardDef.is_trainer (d : CardDef) : Bool := d.supertype = Supertype.trainer

/-- `CardDef::is_energy`. -/
def CardDef.is_energy (d : CardDef) : Bool := d.supertype = Supertype.energy

/-- `CardDef::is_basic_pokemon`. -/
def CardDef.is_basic_pokemon (d : CardDef) : Bool :=
  d.is_pokemon && d.subtypes.contains Subtype.basic

/-- `CardDef::is_stage_1`. -/
def CardDef.is_stage_1 (d : CardDef) : Bool :=
  d.is_pokemon && d.subtypes.contains Subtype.stage1

/-- `CardDef::is_stage_2`. -/
def CardDef.is_stage_2 (d : CardDef) : Bool :=
  d.is_pokemon && d.subtypes.contains Subtype.stage2

/-- `CardDef::is_ex`. -/
def CardDef.is_ex (d : CardDef) : Bool := d.subtypes.contains Subtype.ex

/-- `CardDef::is_item`. -/
def CardDef.is_item (d : CardDef) : Bool := d.subtypes.contains Subtype.item

/-- `CardDef::is_supporter`. -/
def CardDef.is_supporter (d : CardDef) : Bool := d.subtypes.contains Subtype.supporter

/-- `CardDef::is_stadium`. -/
def CardDef.is_stadium (d : CardDef) : Bool := d.subtypes.contains Subtype.stadium

/-- `CardDef::is_tool`. -/
def CardDef.is_tool (d : CardDef) : Bool := d.subtypes.contains Subtype.tool

/-- `CardDef::is_tera`. -/
def CardDef.is_tera (d : CardDef) : Bool := d.subtypes.contains Subtype.tera

/-- `CardDatabase::parse_subtype` from `card_database.cpp`. -/
def parse_subtype (s : String) : Subtype :=
  if s = "Basic" then .basic
  else if s = "Stage 1" then .stage1
  else if s = "Stage 2" then .stage2
  else if s = "ex" then .ex
  else if s = "VSTAR" then .vstar
  else if s = "V" then .v
  else if s = "VMAX" then .vmax
  else if s = "GX" then .gx
  else if s = "Item" then .item
  else if s = "Supporter" then .supporter
  else if s = "Stadium" then .stadium
  else if s = "Pokémon Tool" || s = "Pokemon Tool" then .tool
  else if s = "ACE SPEC" then .aceSpec
  else if s = "Tera" then .tera
  else if s = "Ancient" then .ancient
  else if s = "Future" then .future
  else if s = "Special" then .special
  else .basic

/-- `CardDatabase::parse_energy_type` from `card_database.cpp`. -/
def parse_energy_type (s : String) : EnergyType :=
  if s = "Grass" then .grass
  else if s = "Fire" then .fire
  else if s = "Water" then .water
  else if s = "Lightning" then .lightning
  else if s = "Psychic" then .psychic
  else if s = "Fighting" then .fighting
  else if s = "Darkness" then .darkness
  else if s = "Metal" then .metal
  else if s = "Colorless" then .colorless
  else if s = "Dragon" then .colorless
  else if s = "Fairy" then .psychic
  else .colorless

/-- `CardDatabase` (`unordered_map<CardDefID, CardDef>`), as an association
list from definition id to definition. -/
def CardDatabase := List (String × CardDef)

/-- `CardDatabase::get_card` (null pointer becomes `none`). -/
def CardDatabase.get_card (db : CardDatabase) (card_id : String) : Option CardDef :=
  (List.find? (fun p => p.1 == card_id) db).map Prod.snd

/-- `CardInstance` from `card_instance.hpp`.  The attachment lists hold
full card instances, so the type is a nested inductive; field accessors
are defined below. -/
inductive CardInstance where
  | mk
    (id : String)
    (card_id : String)
    (owner_id : Nat)
    (current_hp : Int)
    (damage_counters : Int)
    (status_flags : Nat)
    (attached_energy : List CardInstance)
    (attached_tools : List CardInstance)
    (evolution_chain : List String)
    (previous_stages : List CardInstance)
    (turns_in_play : Nat)
    (evolved_this_turn : Bool)
    (abilities_used_this_turn : List String)
    (attack_effects : List String)
    (is_revealed : Bool)

namespace CardInstance

/-- Instance id accessor. -/
def id : CardInstance → String
  | mk i _ _ _ _ _ _ _ _ _ _ _ _ _ _ => i

/-- Definition id accessor. -/
def card_id : CardInstance → String
  | mk _ c _ _ _ _ _ _ _ _ _ _ _ _ _ => c

/-- Owner accessor. -/
def owner_id : CardInstance → Nat
  | mk _ _ o _ _ _ _ _ _ _ _ _ _ _ _ => o

/-- Current-HP accessor. -/
def current_hp : CardInstance → Int
  | mk _ _ _ h _ _ _ _ _ _ _ _ _ _ _ => h

/-- Damage-counter accessor. -/
def damage_counters : CardInstance → Int
  | mk _ _ _ _ d _ _ _ _ _ _ _ _ _ _ => d

/-- Status-flag accessor (bit flags, as in `card_instance.hpp`). -/
def status_flags : CardInstance → Nat
  | mk _ _ _ _ _ s _ _ _ _ _ _ _ _ _ => s

/-- Attached-energy accessor. -/
def attached_energy : CardInstance → List CardInstance
  | mk _ _ _ _ _ _ e _ _ _ _ _ _ _ _ => e

/-- Attached-tool accessor. -/
def attached_tools : CardInstance → List CardInstance
  | mk _ _ _ _ _ _ _ t _ _ _ _ _ _ _ => t

/-- Evolution-chain accessor. -/
def evolution_chain : CardInstance → List String
  | mk _ _ _ _ _ _ _ _ ec _ _ _ _ _ _ => ec

/-- Previous-stage accessor. -/
def previous_stages : CardInstance → List CardInstance
  | mk _ _ _ _ _ _ _ _ _ p _ _ _ _ _ => p

/-- Turns-in-play accessor. -/
def turns_in_play : CardInstance → Nat
  | mk _ _ _ _ _ _ _ _ _ _ t _ _ _ _ => t

/-- Evolved-this-turn accessor. -/
def evolved_this_turn : CardInstance → Bool
  | mk _ _ _ _ _ _ _ _ _ _ _ e _ _ _ => e

/-- Abilities-used-this-turn accessor (the C++ `unordered_set`). -/
def abilities_used_this_turn : CardInstance → List String
  | mk _ _ _ _ _ _ _ _ _ _ _ _ a _ _ => a

/-- Attack-effect accessor. -/
def attack_effects : CardInstance → List String
  | mk _ _ _ _ _ _ _ _ _ _ _ _ _ ae _ => ae

/-- Revealed-flag accessor. -/
def is_revealed : CardInstance → Bool
  | mk _ _ _ _ _ _ _ _ _ _ _ _ _ _ r => r

/-- Replace the attached-energy list (used for C++ mutations of
`attached_energy`). -/
def set_attached_energy : CardInstance → List CardInstance → CardInstance
  | mk i c o h d s _ t ec p tp ev a ae r, e => mk i c o h d s e t ec p tp ev a ae r

/-- Replace the attached-tool list. -/
def set_attached_tools : CardInstance → List CardInstance → CardInstance
  | mk i c o h d s e _ ec p tp ev a ae r, t => mk i c o h d s e t ec p tp ev a ae r

/-- Replace the abilities-used set. -/
def set_abilities_used : CardInstance → List String → CardInstance
  | mk i c o h d s e t ec p tp ev _ ae r, a => mk i c o h d s e t ec p tp ev a ae r

/-- Replace the attack-effect list. -/
def set_attack_effects : CardInstance → List String → CardInstance
  | mk i c o h d s e t ec p tp ev a _ r, ae => mk i c o h d s e t ec p tp ev a ae r

/-- Replace the current HP. -/
def set_current_hp : CardInstance → Int → CardInstance
  | mk i c o _ d s e t ec p tp ev a ae r, h => mk i c o h d s e t ec p tp ev a ae r

/-- Replace the damage-counter count. -/
def set_damage_counters : CardInstance → Int → CardInstance
  | mk i c o h _ s e t ec p tp ev a ae r, d => mk i c o h d s e t ec p tp ev a ae r

/-- Increment turns-in-play and reset the evolved flag (the body of the
loop in `PlayerState::increment_turns_in_play`). -/
def bump_turns_in_play : CardInstance → CardInstance
  | mk i c o h d s e t ec p tp _ a ae r => mk i c o h d s e t ec p (tp + 1) false a ae r

/-- `STATUS_ASLEEP` bit from `card_instance.hpp`. -/
def statusAsleepBit : Nat := 4

/-- `STATUS_PARALYZED` bit from `card_instance.hpp`. -/
def statusParalyzedBit : Nat := 8

/-- `CardInstance::is_asleep_or_paralyzed`. -/
def is_asleep_or_paralyzed (c : CardInstance) : Bool :=
  c.status_flags &&& (statusAsleepBit ||| statusParalyzedBit) ≠ 0

/-- `CardInstance::clear_all_status`. -/
def clear_all_status : CardInstance → CardInstance
  | mk i c o h d _ e t ec p tp ev a ae r => mk i c o h d 0 e t ec p tp ev a ae r

/-- `CardInstance::is_knocked_out`. -/
def is_knocked_out (c : CardInstance) (max_hp : Int) : Bool :=
  c.damage_counters * 10 ≥ max_hp

/-- `CardInstance::total_attached_energy`. -/
def total_attached_energy (c : CardInstance) : Int :=
  Int.ofNat c.attached_energy.length

end CardInstance

/-- A convenience constructor giving every runtime field its C++ default
(`CardInstance` default member initializers). -/
def mkCard (id card_id : String) (owner_id : Nat := 0) : CardInstance :=
  CardInstance.mk id card_id owner_id 0 0 0 [] [] [] [] 0 false [] [] false

/-- Remove the first card with the given instance id from a list,
returning it (mirrors the erase-and-return loop of `Zone::take_card`). -/
def extractById : List CardInstance → String → Option CardInstance × List CardInstance
  | [], _ => (none, [])
  | c :: cs, i =>
    if c.id = i then (some c, cs)
    else
      let r := extractById cs i
      (r.1, c :: r.2)

/-- Apply `f` to the first card with the given instance id (mirrors C++
mutation through the pointer returned by a find loop). -/
def updateById : List CardInstance → String → (CardInstance → CardInstance) → List CardInstance
  | [], _, _ => []
  | c :: cs, i, f =>
    if c.id = i then f c :: cs
    else c :: updateById cs i f

/-- `Zone` from `zone.hpp`. -/
structure Zone where
  cards : List CardInstance
  is_ordered : Bool := true
  is_hidden : Bool := false
  is_private : Bool := false

/-- `Zone::add_card` with the default position (append to the back). -/
def Zone.add_card (z : Zone) (c : CardInstance) : Zone :=
  { z with cards := z.cards ++ [c] }

/-- `Zone::take_card` (remove-by-id returning the removed card; the zone
is unchanged when the id is absent). -/
def Zone.take_card (z : Zone) (i : String) : Option CardInstance × Zone :=
  let r := extractById z.cards i
  (r.1, { z with cards := r.2 })

/-- `Zone::find_card`. -/
def Zone.find_card (z : Zone) (i : String) : Option CardInstance :=
  z.cards.find? (fun c => c.id == i)

/-- `Zone::count`. -/
def Zone.count (z : Zone) : Int := Int.ofNat z.cards.length

/-- `Zone::is_empty`. -/
def Zone.is_empty (z : Zone) : Bool := z.cards.isEmpty

/-- `Zone::draw_top`: draw from the top of the deck, which `zone.hpp`
documents as index 0 (the front of the vector). -/
def Zone.draw_top (z : Zone) : Option CardInstance × Zone :=
  match z.cards with
  | [] => (none, z)
  | c :: cs => (some c, { z with cards := cs })

/-- `Zone::add_to_bottom` (append to the back of the vector). -/
def Zone.add_to_bottom (z : Zone) (c : CardInstance) : Zone :=
  { z with cards := z.cards ++ [c] }

/-- `Zone::add_to_top` (insert at the front of the vector). -/
def Zone.add_to_top (z : Zone) (c : CardInstance) : Zone :=
  { z with cards := c :: z.cards }

/-- `Board` from `board.hpp`. -/
structure Board where
  active_spot : Option CardInstance := none
  bench : List CardInstance := []
  max_bench_size : Int := 5

/-- `Board::get_bench_count`. -/
def Board.get_bench_count (b : Board) : Int := Int.ofNat b.bench.length

/-- `Board::can_add_to_bench`. -/
def Board.can_add_to_bench (b : Board) : Bool :=
  b.get_bench_count < b.max_bench_size

/-- `Board::add_to_bench` (no-op when the bench is full; the C++ returns
`false` in that case and leaves the bench untouched). -/
def Board.add_to_bench (b : Board) (c : CardInstance) : Board :=
  if b.can_add_to_bench then { b with bench := b.bench ++ [c] } else b

/-- `Board::find_on_bench`. -/
def Board.find_on_bench (b : Board) (i : String) : Option CardInstance :=
  b.bench.find? (fun c => c.id == i)

/-- `Board::find_pokemon` (active spot first, then bench). -/
def Board.find_pokemon (b : Board) (i : String) : Option CardInstance :=
  match b.active_spot with
  | some a => if a.id = i then some a else b.find_on_bench i
  | none => b.find_on_bench i

/-- Mutation through the pointer returned by `Board::find_pokemon`:
update the active spot if it matches, else the first matching bench
entry. -/
def Board.update_pokemon (b : Board) (i : String) (f : CardInstance → CardInstance) : Board :=
  match b.active_spot with
  | some a =>
    if a.id = i then { b with active_spot := some (f a) }
    else { b with bench := updateById b.bench i f }
  | none => { b with bench := updateById b.bench i f }

/-- `Board::get_all_pokemon` (active first, then bench order). -/
def Board.get_all_pokemon (b : Board) : List CardInstance :=
  (match b.active_spot with | some a => [a] | none => []) ++ b.bench

/-- `Board::has_active`. -/
def Board.has_active (b : Board) : Bool := b.active_spot.isSome

/-- `Board::has_any_pokemon`. -/
def Board.has_any_pokemon (b : Board) : Bool :=
  b.has_active || !b.bench.isEmpty

/-- `Board::switch_active`: swap the active spot with the named bench
entry, the old active taking the bench entry's position.  No-op when the
bench entry or the active is missing. -/
def Board.switch_active (b : Board) (bench_pokemon_id : String) : Board :=
  match b.active_spot with
  | none => b
  | some act =>
    match b.find_on_bench bench_pokemon_id with
    | none => b
    | some bp =>
      { b with
        active_spot := some bp
        bench := updateById b.bench bench_pokemon_id (fun _ => act) }

/-- `Board::promote_to_active` (only when the active spot is empty). -/
def Board.promote_to_active (b : Board) (i : String) : Board :=
  match b.active_spot with
  | some _ => b
  | none =>
    let r := extractById b.bench i
    match r.1 with
    | none => b
    | some p => { b with active_spot := some p, bench := r.2 }

/-- `PlayerState` from `player_state.hpp`. -/
structure PlayerState where
  player_id : Nat
  name : String := "Player"
  deck : Zone := { cards := [], is_ordered := true, is_hidden := true, is_private := false }
  hand : Zone := { cards := [], is_ordered := false, is_hidden := false, is_private := true }
  discard : Zone := { cards := [], is_ordered := true, is_hidden := false, is_private := false }
  prizes : Zone := { cards := [], is_ordered := true, is_hidden := true, is_private := false }
  board : Board := {}
  vstar_power_used : Bool := false
  gx_attack_used : Bool := false
  supporter_played_this_turn : Bool := false
  energy_attached_this_turn : Bool := false
  retreated_this_turn : Bool := false
  stadium_played_this_turn : Bool := false
  prizes_taken : Int := 0
  initial_deck_counts : List (String × Int) := []
  functional_id_map : List (String × String) := []
  has_searched_deck : Bool := false

/-- `PlayerState::has_active_pokemon`. -/
def PlayerState.has_active_pokemon (p : PlayerState) : Bool := p.board.has_active

/-- `PlayerState::has_any_pokemon_in_play`. -/
def PlayerState.has_any_pokemon_in_play (p : PlayerState) : Bool := p.board.has_any_pokemon

/-- `PlayerState::find_pokemon`. -/
def PlayerState.find_pokemon (p : PlayerState) (i : String) : Option CardInstance :=
  p.board.find_pokemon i

/-- `PlayerState::reset_turn_flags` (clears the four turn flags and every
in-play Pokemon's used-ability set). -/
def PlayerState.reset_turn_flags (p : PlayerState) : PlayerState :=
  { p with
    supporter_played_this_turn := false
    energy_attached_this_turn := false
    retreated_this_turn := false
    stadium_played_this_turn := false
    board :=
      { p.board with
        active_spot := p.board.active_spot.map (fun a => a.set_abilities_used [])
        bench := p.board.bench.map (fun a => a.set_abilities_used []) } }

/-- `PlayerState::increment_turns_in_play`. -/
def PlayerState.increment_turns_in_play (p : PlayerState) : PlayerState :=
  { p with
    board :=
      { p.board with
        active_spot := p.board.active_spot.map CardInstance.bump_turns_in_play
        bench := p.board.bench.map CardInstance.bump_turns_in_play } }

/-- `ActiveEffect` from `game_state.hpp`. -/
structure ActiveEffect where
  name : String
  source_card_id : String := ""
  target_player_id : Option Nat := none
  target_card_id : Option String := none
  duration_turns : Int := 1
  created_turn : Int := 0
  created_phase : String := ""
  expires_on_player : Option Nat := none
  params : List (String × String) := []

/-- `SelectFromZoneStep` from `resolution_step.hpp` / `engine.cpp`.
`engine.cpp` drives completion through the optional string
`on_complete_callback`; the closure-valued `on_complete` of
`resolution_step.hpp` is never invoked by `engine.cpp` and is omitted. -/
structure SelectFromZoneStep where
  source_card_id : String := ""
  source_card_name : String := ""
  player_id : Nat := 0
  purpose : SelectionPurpose := .discardCost
  is_complete : Bool := false
  on_complete_callback : Option String := none
  zone : ZoneType := .hand
  count : Int := 1
  min_count : Int := 0
  exact_count : Bool := false
  filter_criteria : List (String × String) := []
  exclude_card_ids : List String := []
  selected_card_ids : List String := []
  context : List (String × String) := []

/-- `SearchDeckStep` from `resolution_step.hpp` / `engine.cpp`. -/
structure SearchDeckStep where
  source_card_id : String := ""
  source_card_name : String := ""
  player_id : Nat := 0
  purpose : SelectionPurpose := .searchTarget
  is_complete : Bool := false
  count : Int := 1
  min_count : Int := 0
  destination : ZoneType := .hand
  filter_criteria : List (String × String) := []
  selected_card_ids : List String := []
  shuffle_after : Bool := true
  reveal_cards : Bool := false

/-- `AttachToTargetStep` from `resolution_step.hpp` / `engine.cpp`. -/
structure AttachToTargetStep where
  source_card_id : String := ""
  source_card_name : String := ""
  player_id : Nat := 0
  purpose : SelectionPurpose := .attachTarget
  is_complete : Bool := false
  on_complete_callback : Option String := none
  card_to_attach_id : String := ""
  card_to_attach_name : String := ""
  valid_target_ids : List String := []
  selected_target_id : Option String := none

/-- `EvolveTargetStep` from `resolution_step.hpp`. -/
structure EvolveTargetStep where
  source_card_id : String := ""
  source_card_name : String := ""
  player_id : Nat := 0
  purpose : SelectionPurpose := .evolutionBase
  is_complete : Bool := false
  base_pokemon_id : String := ""
  evolution_card_id : String := ""
  skip_evolution_sickness : Bool := false
  skip_stage : Bool := false

/-- `ResolutionStep` (the `std::variant` of the four step shapes). -/
inductive ResolutionStep where
  | selectFromZone (s : SelectFromZoneStep)
  | searchDeck (s : SearchDeckStep)
  | attachToTarget (s : AttachToTargetStep)
  | evolveTarget (s : EvolveTargetStep)

/-- `Action` from `action.hpp` (the `metadata` map and display label are
omitted: they do not participate in action equality or application). -/
structure Action where
  action_type : ActionType
  player_id : Nat
  card_id : Option String := none
  target_id : Option String := none
  attack_name : Option String := none
  ability_name : Option String := none
  choice_index : Option Int := none
  parameters : List (String × String) := []
deriving DecidableEq, Repr

/-- `Action::attack` factory. -/
def Action.attack (player : Nat) (attacker : String) (attack : String) : Action :=
  { action_type := .attack, player_id := player, card_id := some attacker,
    attack_name := some attack }

/-- `Action::use_ability` factory. -/
def Action.use_ability (player : Nat) (card : String) (ability : String) : Action :=
  { action_type := .useAbility, player_id := player, card_id := some card,
    ability_name := some ability }

/-- `Action::retreat` factory. -/
def Action.retreat (player : Nat) (active replacement : String) : Action :=
  { action_type := .retreat, player_id := player, card_id := some active,
    target_id := some replacement }

/-- `Action::play_item` factory. -/
def Action.play_item (player : Nat) (card : String) : Action :=
  { action_type := .playItem, player_id := player, card_id := some card }

/-- `Action::play_supporter` factory. -/
def Action.play_supporter (player : Nat) (card : String) : Action :=
  { action_type := .playSupporter, player_id := player, card_id := some card }

/-- `Action::play_stadium` factory. -/
def Action.play_stadium (player : Nat) (card : String) : Action :=
  { action_type := .playStadium, player_id := player, card_id := some card }

/-- `Action::select_card` factory. -/
def Action.select_card (player : Nat) (card : String) : Action :=
  { action_type := .selectCard, player_id := player, card_id := some card }

/-- `Action::confirm_selection` factory. -/
def Action.confirm_selection (player : Nat) : Action :=
  { action_type := .confirmSelection, player_id := player }

/-- `Action::attach_energy` factory. -/
def Action.attach_energy (player : Nat) (energy target : String) : Action :=
  { action_type := .attachEnergy, player_id := player, card_id := some energy,
    target_id := some target }

/-- `GameState` from `game_state.hpp`.  The two players are separate
fields (the C++ `std::array<PlayerState, 2>`); the resolution stack's
head is the C++ vector's back. -/
structure GameState where
  player0 : PlayerState := { player_id := 0 }
  player1 : PlayerState := { player_id := 1 }
  turn_count : Int := 1
  active_player_index : Nat := 0
  starting_player_id : Nat := 0
  current_phase : GamePhase := .setup
  stadium : Option CardInstance := none
  active_effects : List ActiveEffect := []
  result : GameResult := .ongoing
  winner_id : Option Nat := none
  turn_metadata : List (String × String) := []
  last_turn_metadata : List (String × String) := []
  random_seed : Option Nat := none
  move_history : List String := []
  rng : Nat := 0
  resolution_stack : List ResolutionStep := []
  attack_resolution_pending : Bool := false

/-- `GameState::get_player`. -/
def GameState.get_player (s : GameState) (i : Nat) : PlayerState :=
  if i = 0 then s.player0 else s.player1

/-- Write back a player slot (functional form of mutation through the
reference returned by `GameState::get_player`). -/
def GameState.set_player (s : GameState) (i : Nat) (p : PlayerState) : GameState :=
  if i = 0 then { s with player0 := p } else { s with player1 := p }

/-- Modify a player slot in place. -/
def GameState.modify_player (s : GameState) (i : Nat) (f : PlayerState → PlayerState) : GameState :=
  s.set_player i (f (s.get_player i))

/-- `GameState::get_active_player` (read). -/
def GameState.get_active_player (s : GameState) : PlayerState :=
  s.get_player s.active_player_index

/-- `GameState::get_opponent` (read). -/
def GameState.get_opponent (s : GameState) : PlayerState :=
  s.get_player (1 - s.active_player_index)

/-- `GameState::switch_active_player`. -/
def GameState.switch_active_player (s : GameState) : GameState :=
  { s with active_player_index := 1 - s.active_player_index }

/-- `GameState::is_game_over`. -/
def GameState.is_game_over (s : GameState) : Bool :=
  s.result ≠ GameResult.ongoing

/-- `GameState::push_step`: pushing a deck search also sets the pushing
player's `has_searched_deck` flag. -/
def GameState.push_step (s : GameState) (step : ResolutionStep) : GameState :=
  let s1 :=
    match step with
    | .searchDeck sd =>
      s.modify_player sd.player_id (fun p => { p with has_searched_deck := true })
    | _ => s
  { s1 with resolution_stack := step :: s1.resolution_stack }

/-- `GameState::pop_step` (drops the top; the popped value is read from
the head before popping where the C++ uses the return value). -/
def GameState.pop_step (s : GameState) : GameState :=
  { s with resolution_stack := s.resolution_stack.tail }

/-- `GameState::find_card` over both players' boards and zones plus the
stadium slot (board first, then hand, deck, discard, prizes — the order
of `PlayerState::find_card_anywhere`). -/
def PlayerState.find_card_anywhere (p : PlayerState) (i : String) : Option CardInstance :=
  match p.board.find_pokemon i with
  | some c => some c
  | none =>
    match p.hand.find_card i with
    | some c => some c
    | none =>
      match p.deck.find_card i with
      | some c => some c
      | none =>
        match p.discard.find_card i with
        | some c => some c
        | none => p.prizes.find_card i

/-- `to_string(EnergyType)` from `types.hpp`. -/
def energy_to_string : EnergyType → String
  | .grass => "Grass"
  | .fire => "Fire"
  | .water => "Water"
  | .lightning => "Lightning"
  | .psychic => "Psychic"
  | .fighting => "Fighting"
  | .darkness => "Darkness"
  | .metal => "Metal"
  | .colorless => "Colorless"

/-- `std::string::find(pat) != npos` (non-empty `pat`). -/
def strContains (s pat : String) : Bool := (s.splitOn pat).length ≥ 2

/-- `s.find(pat) == 0` (prefix test used by the registry scans). -/
def strStartsWith (s pat : String) : Bool := pat.isPrefixOf s

/-- `TrainerResult` from `logic_registry.hpp` (note `success` defaults to
`false`). -/
structure TrainerResult where
  success : Bool := false
  requires_resolution : Bool := false
  effect_description : String := ""
  push_steps : List ResolutionStep := []

/-- `AbilityResult` from `logic_registry.hpp`. -/
structure AbilityResult where
  activated : Bool := false
  effect_description : String := ""
  push_steps : List ResolutionStep := []

/-- `AttackResult` from `logic_registry.hpp`. -/
structure AttackResult where
  damage_dealt : Int := 0
  target_knocked_out : Bool := false
  requires_coin_flip : Bool := false
  effect_description : String := ""
  additional_damage : List (String × Int) := []
  add_status : List (String × StatusCondition) := []
  add_effect : List (String × String) := []

/-- Trainer callback: the C++ handler mutates the state through its
reference and returns a `TrainerResult`; here it returns both. -/
def TrainerHandler := GameState → CardInstance → TrainerResult × GameState

/-- Ability callback (state-mutating, like the trainer callback). -/
def AbilityHandler := GameState → CardInstance → String → AbilityResult × GameState

/-- Attack callback.  The C++ callback may additionally mutate the
defender through its pointer argument; no registered attack callback
exists in the sources, so that channel is not modelled. -/
def AttackHandler := GameState → CardInstance → String → AttackResult × GameState

/-- Modifier callback from `logic_registry.hpp`. -/
def ModifierCallback := GameState → String → Int → Int

/-- Guard callback from `logic_registry.hpp` (`true` = allowed). -/
def GuardCallback := GameState → Action → Bool

/-- Hook callback from `logic_registry.hpp` (`true` = cancel event). -/
def HookCallback := GameState → String → Bool × GameState

/-- Passive condition callback from `logic_registry.hpp`. -/
def PassiveConditionCallback := GameState → CardInstance → Bool

/-- Passive effect callback from `logic_registry.hpp` (`true` = blocked). -/
def PassiveCallback := GameState → CardInstance → CardInstance → String → Bool

/-- `LogicRegistry::PassiveEntry`. -/
structure PassiveEntry where
  condition : PassiveConditionCallback
  effect : PassiveCallback

/-- Modelled from the spec: the `StadiumHandler` record registered with
`LogicRegistry::register_stadium`.  Its type is declared in a header that
is not among the sources; per the spec a stadium handler has four
sub-slots, `on_enter`, `on_leave`, `bench_size(state, db, player)` and
`condition(state, db, player)`.  The one-shot hooks run against the
mutable state. -/
structure StadiumHandler where
  on_enter : Option (GameState → GameState) := none
  on_leave : Option (GameState → Nat → GameState) := none
  bench_size : Option (GameState → CardDatabase → Nat → Int) := none
  condition : Option (GameState → CardDatabase → Nat → Bool) := none

/-- `LogicRegistry` from `logic_registry.hpp` / `logic_registry.cpp`:
each callback table is an association list keyed by the same strings the
C++ uses. -/
structure LogicRegistry where
  attacks : List (String × AttackHandler) := []
  abilities : List (String × AbilityHandler) := []
  trainer_handlers : List (String × TrainerHandler) := []
  stadium_handlers : List (String × StadiumHandler) := []
  guards : List (String × GuardCallback) := []
  modifiers : List (String × ModifierCallback) := []
  hooks : List (String × HookCallback) := []
  passives : List (String × PassiveEntry) := []

namespace LogicRegistry

/-- `LogicRegistry::make_key`. -/
def make_key (card_id name : String) : String := card_id ++ ":" ++ name

/-- `LogicRegistry::has_trainer`. -/
def has_trainer (r : LogicRegistry) (card_id : String) : Bool :=
  (r.trainer_handlers.find? (fun p => p.1 == card_id)).isSome

/-- `LogicRegistry::invoke_trainer` (default `TrainerResult{}` when no
handler is registered). -/
def invoke_trainer (r : LogicRegistry) (card_id : String) (s : GameState)
    (card : CardInstance) : TrainerResult × GameState :=
  match r.trainer_handlers.find? (fun p => p.1 == card_id) with
  | some (_, h) => h s card
  | none => ({}, s)

/-- `LogicRegistry::has_ability`. -/
def has_ability (r : LogicRegistry) (card_id name : String) : Bool :=
  (r.abilities.find? (fun p => p.1 == make_key card_id name)).isSome

/-- `LogicRegistry::invoke_ability` (default `AbilityResult{}`). -/
def invoke_ability (r : LogicRegistry) (card_id name : String) (s : GameState)
    (pokemon : CardInstance) : AbilityResult × GameState :=
  match r.abilities.find? (fun p => p.1 == make_key card_id name) with
  | some (_, h) => h s pokemon name
  | none => ({}, s)

/-- `LogicRegistry::has_attack`. -/
def has_attack (r : LogicRegistry) (card_id name : String) : Bool :=
  (r.attacks.find? (fun p => p.1 == make_key card_id name)).isSome

/-- `LogicRegistry::invoke_attack` (default `AttackResult{}`). -/
def invoke_attack (r : LogicRegistry) (card_id name : String) (s : GameState)
    (attacker : CardInstance) : AttackResult × GameState :=
  match r.attacks.find? (fun p => p.1 == make_key card_id name) with
  | some (_, h) => h s attacker name
  | none => ({}, s)

/-- `LogicRegistry::invoke_stadium_on_enter` from `logic_registry.cpp`
(runs the registered `on_enter` slot when present; otherwise does
nothing). -/
def invoke_stadium_on_enter (r : LogicRegistry) (card_id : String)
    (s : GameState) : GameState :=
  match r.stadium_handlers.find? (fun p => p.1 == card_id) with
  | some (_, h) =>
    match h.on_enter with
    | some f => f s
    | none => s
  | none => s

/-- `LogicRegistry::invoke_stadium_on_leave` from `logic_registry.cpp`. -/
def invoke_stadium_on_leave (r : LogicRegistry) (card_id : String)
    (s : GameState) (new_stadium_owner : Nat) : GameState :=
  match r.stadium_handlers.find? (fun p => p.1 == card_id) with
  | some (_, h) =>
    match h.on_leave with
    | some f => f s new_stadium_owner
    | none => s
  | none => s

/-- `LogicRegistry::apply_modifiers`: fold every modifier whose key
contains `":" ++ context` over the value, in table order. -/
def apply_modifiers (r : LogicRegistry) (s : GameState) (context : String)
    (base_value : Int) : Int :=
  r.modifiers.foldl
    (fun v p => if strContains p.1 (":" ++ context) then p.2 s context v else v)
    base_value

/-- The per-card collection step of `LogicRegistry::scan_global_modifiers`. -/
def scan_card_modifiers (r : LogicRegistry) (card : CardInstance)
    (modifier_type : String) : List ModifierCallback :=
  (r.modifiers.filter
    (fun p => strStartsWith p.1 (card.card_id ++ ":") &&
              strContains p.1 (":" ++ modifier_type))).map Prod.snd

/-- `LogicRegistry::scan_global_modifiers`: both players' actives and
benches in array order, then the stadium. -/
def scan_global_modifiers (r : LogicRegistry) (s : GameState)
    (modifier_type : String) : List ModifierCallback :=
  let boards :=
    s.player0.board.get_all_pokemon ++ s.player1.board.get_all_pokemon ++
      (match s.stadium with | some st => [st] | none => [])
  (boards.map (fun c => r.scan_card_modifiers c modifier_type)).flatten

/-- `LogicRegistry::is_ability_blocked_by_passive` from
`logic_registry.cpp`: scan both players' active spots; a passive whose key
starts with the active's definition id, whose condition holds and whose
effect returns `true`, blocks the ability. -/
def is_ability_blocked_by_passive (r : LogicRegistry) (s : GameState)
    (target_pokemon : CardInstance) (ability_name : String) : Bool :=
  [s.player0, s.player1].any (fun player =>
    match player.board.active_spot with
    | none => false
    | some active =>
      r.passives.any (fun p =>
        strStartsWith p.1 (active.card_id ++ ":") &&
        p.2.condition s active &&
        p.2.effect s active target_pokemon ability_name))

/-- `LogicRegistry::trigger_hooks`: run every hook whose key contains
`":" ++ event_type`, threading the state, and OR the cancel flags. -/
def trigger_hooks (r : LogicRegistry) (s : GameState) (event_type : String) :
    Bool × GameState :=
  r.hooks.foldl
    (fun acc p =>
      if strContains p.1 (":" ++ event_type) then
        let res := p.2 acc.2 event_type
        (acc.1 || res.1, res.2)
      else acc)
    (false, s)

end LogicRegistry

/-- `PokemonEngine::calculate_provided_energy` from `engine.cpp`: the
provided-energy multiset of a Pokemon, as a count function over the nine
types (the C++ `unordered_map<EnergyType, int>` with absent keys read as
0). Basic energy provides one of its own type; special energy provides
its `provides` list, or one Colorless when that list is empty. -/
def calculate_provided_energy (db : CardDatabase) (pokemon : CardInstance) :
    EnergyType → Nat :=
  pokemon.attached_energy.foldl
    (fun provided energy_card =>
      match db.get_card energy_card.card_id with
      | none => provided
      | some energy_def =>
        if energy_def.is_basic_energy then
          fun t => if t = energy_def.energy_type then provided t + 1 else provided t
        else
          let afterProvides :=
            energy_def.provides.foldl
              (fun m ty => fun t => if t = ty then m t + 1 else m t) provided
          if energy_def.provides.isEmpty then
            fun t => if t = EnergyType.colorless then afterProvides t + 1 else afterProvides t
          else afterProvides)
    (fun _ => 0)

/-- `PokemonEngine::can_pay_energy_cost` from `engine.cpp`: pay each
non-Colorless cost slot from its own bucket (fail when underfunded),
then require the total of what remains to cover the Colorless slots. -/
def can_pay_energy_cost (provided_energy : EnergyType → Nat)
    (cost : List EnergyType) : Bool :=
  if cost.isEmpty then true
  else
    let colorless_needed := cost.count EnergyType.colorless
    let specific_needed : EnergyType → Nat :=
      fun t => if t = EnergyType.colorless then 0 else cost.count t
    if EnergyType.all.all (fun t => specific_needed t ≤ provided_energy t) then
      decide (colorless_needed ≤
        (EnergyType.all.map (fun t => provided_energy t - specific_needed t)).sum)
    else false

/-- `PokemonEngine::has_energy_for_attack`. -/
def has_energy_for_attack (db : CardDatabase) (pokemon : CardInstance)
    (cost : List EnergyType) : Bool :=
  can_pay_energy_cost (calculate_provided_energy db pokemon) cost

/-- `PokemonEngine::calculate_retreat_cost` from `engine.cpp`: the
definition's retreat cost, through the `retreat_cost` modifiers, then the
`global_retreat_cost` board scan, clamped at 0.  (The attached-tool loop
in the source is a no-op.) -/
def calculate_retreat_cost (db : CardDatabase) (reg : LogicRegistry)
    (s : GameState) (pokemon : CardInstance) : Int :=
  match db.get_card pokemon.card_id with
  | none => 0
  | some d =>
    let cost := d.retreat_cost
    let cost := reg.apply_modifiers s "retreat_cost" cost
    let cost :=
      (reg.scan_global_modifiers s "global_retreat_cost").foldl
        (fun c f => f s "global_retreat_cost" c) cost
    max 0 cost

/-- One criterion of `PokemonEngine::card_matches_filter` (the `else if`
chain body of `engine.cpp`); keys that hit no branch leave the loop
iteration without effect, i.e. the criterion holds. -/
def engine_filter_criterion (d : CardDef) (key value : String) : Bool :=
  if key = "supertype" then
    (value = "Pokemon" && d.is_pokemon) || (value = "Trainer" && d.is_trainer) ||
      (value = "Energy" && d.is_energy)
  else if key = "subtype" then
    d.subtypes.contains (parse_subtype value)
  else if key = "max_hp" then
    d.is_pokemon && d.hp ≤ (value.toInt?.getD 0)
  else if key = "pokemon_type" then
    d.is_pokemon && d.types.contains (parse_energy_type value)
  else if key = "energy_type" then
    d.is_energy && d.energy_type = parse_energy_type value
  else if key = "name" then
    d.name = value
  else if key = "evolves_from" then
    d.evolves_from = some value
  else if key = "rare_candy_target" && value = "true" then
    d.is_stage_2 && d.evolves_from.isSome
  else if key = "super_rod_target" && value = "true" then
    d.is_pokemon || (d.is_energy && d.is_basic_energy)
  else if key = "night_stretcher_target" && value = "true" then
    d.is_pokemon
  else if key = "is_basic" && value = "true" then
    d.is_basic_pokemon
  else true

/-- `PokemonEngine::card_matches_filter` from `engine.cpp` (the `state`
and `player` parameters of the C++ signature are unused by its body and
omitted): empty filters match everything, a missing definition matches
nothing, and otherwise every criterion must hold. -/
def card_matches_filter (db : CardDatabase) (card : CardInstance)
    (filter : List (String × String)) : Bool :=
  if filter.isEmpty then true
  else
    match db.get_card card.card_id with
    | none => false
    | some d => filter.all (fun kv => engine_filter_criterion d kv.1 kv.2)

/-- One criterion of `effects::card_matches_filter` from
`effect_builders.cpp` (same fall-through-on-unknown-key shape, but
checked against the definition directly and with string-compared
subtype/type values). -/
def effects_filter_criterion (d : CardDef) (key value : String) : Bool :=
  if key = "supertype" then
    !(value = "Pokemon" && !d.is_pokemon) && !(value = "Trainer" && !d.is_trainer) &&
      !(value = "Energy" && !d.is_energy)
  else if key = "subtype" then
    !(value = "Basic" && !d.is_basic_pokemon) && !(value = "Stage 1" && !d.is_stage_1) &&
      !(value = "Stage 2" && !d.is_stage_2) && !(value = "Item" && !d.is_item) &&
      !(value = "Supporter" && !d.is_supporter) && !(value = "Stadium" && !d.is_stadium) &&
      !(value = "Tool" && !d.is_tool) && !(value = "ex" && !d.is_ex)
  else if key = "pokemon_type" then
    d.types.any (fun t => energy_to_string t = value)
  else if key = "max_hp" then
    d.hp ≤ (value.toInt?.getD 0)
  else if key = "name" then
    d.name = value
  else if key = "evolves_from" then
    d.evolves_from = some value
  else if key = "is_basic_energy" then
    d.is_basic_energy = (value = "true")
  else true

/-- `effects::card_matches_filter` from `effect_builders.cpp`. -/
def effects_card_matches_filter (d : CardDef)
    (filter : List (String × String)) : Bool :=
  filter.all (fun kv => effects_filter_criterion d kv.1 kv.2)

/-- `PokemonEngine::get_attack_actions` from `engine.cpp`: no active, an
Asleep or Paralyzed active, a `cannot_attack_next_turn` effect, or going
first on turn 1 produce no attacks; otherwise one `Attack` action per
attack of the active's definition whose cost is payable. -/
def get_attack_actions (db : CardDatabase) (s : GameState) : List Action :=
  let player := s.get_active_player
  match player.board.active_spot with
  | none => []
  | some active =>
    if active.is_asleep_or_paralyzed then []
    else if active.attack_effects.contains "cannot_attack_next_turn" then []
    else if s.turn_count = 1 && s.active_player_index = s.starting_player_id then []
    else
      match db.get_card active.card_id with
      | none => []
      | some d =>
        (d.attacks.filter (fun a => has_energy_for_attack db active a.cost)).map
          (fun a => Action.attack player.player_id active.id a.name)

/-- `EffectResult` from `effect_builders.hpp`. -/
structure EffectResult where
  success : Bool := false
  requires_resolution : Bool := false
  message : String := ""

/-- `effects::can_discard_from_hand` from `effect_builders.cpp`: both the
filtered and unfiltered branches only compare the hand size with the
requested count. -/
def effects_can_discard_from_hand (s : GameState) (player_id : Nat)
    (count : Int) : Bool :=
  (s.get_player player_id).hand.count ≥ count

/-- `effects::search_deck` from `effect_builders.cpp`: push a
`SearchDeckStep` carrying the filter, counts, destination and shuffle
flag.  (The optional completion closure is dropped: `engine.cpp` never
invokes closure callbacks.) -/
def effects_search_deck (s : GameState) (source_card : CardInstance)
    (player_id : Nat) (filter : List (String × String)) (count min_count : Int)
    (destination : ZoneType) (shuffle_after : Bool) : EffectResult × GameState :=
  let step : SearchDeckStep :=
    { source_card_id := source_card.id
      source_card_name := source_card.card_id
      player_id := player_id
      purpose := .searchTarget
      count := count
      min_count := min_count
      destination := destination
      filter_criteria := filter
      shuffle_after := shuffle_after }
  ({ success := true, requires_resolution := true,
     message := "Search deck" },
   s.push_step (.searchDeck step))

/-- `effects::search_deck_to_bench`. -/
def effects_search_deck_to_bench (s : GameState) (source_card : CardInstance)
    (player_id : Nat) (filter : List (String × String)) (count min_count : Int) :
    EffectResult × GameState :=
  effects_search_deck s source_card player_id filter count min_count .bench true

/-- `effects::discard_then` from `effect_builders.cpp`: reject (leaving
the state untouched) when the hand cannot supply `discard_count` cards;
otherwise push a hand-selection step with `exact_count`, excluding the
source card.  (The completion closure that would discard the selection
and run the follow-up effect is dropped: `engine.cpp` never invokes
closure callbacks.) -/
def effects_discard_then (s : GameState) (source_card : CardInstance)
    (player_id : Nat) (discard_count : Int)
    (discard_filter : List (String × String)) : EffectResult × GameState :=
  if !effects_can_discard_from_hand s player_id discard_count then
    ({ success := false, message := "Not enough cards to discard" }, s)
  else
    let step : SelectFromZoneStep :=
      { source_card_id := source_card.id
        source_card_name := source_card.card_id
        player_id := player_id
        purpose := .discardCost
        zone := .hand
        count := discard_count
        min_count := discard_count
        exact_count := true
        filter_criteria := discard_filter
        exclude_card_ids := [source_card.id] }
    ({ success := true, requires_resolution := true,
       message := "Discard cards" },
     s.push_step (.selectFromZone step))

/-- `effects::draw_cards` from `effect_builders.cpp`: draw `count` cards
(clamped at the deck size) by repeatedly moving the LAST element of the
deck vector into the hand — note this is the opposite end from
`Zone::draw_top`, which removes index 0. -/
def effects_draw_cards (s : GameState) (player_id : Nat) (count : Int) :
    EffectResult × GameState :=
  let player := s.get_player player_id
  let actual_draw := (min count player.deck.count).toNat
  let deckArr := player.deck.cards
  let drawn := (deckArr.drop (deckArr.length - actual_draw)).reverse
  let player1 :=
    { player with
      deck := { player.deck with cards := deckArr.take (deckArr.length - actual_draw) }
      hand := { player.hand with cards := player.hand.cards ++ drawn } }
  ({ success := true, requires_resolution := false,
     message := "Drew cards" },
   s.set_player player_id player1)

/-- `can_play_ultra_ball` from `ultra_ball.cpp`: the hand must hold the
Ultra Ball plus at least two other cards. -/
def can_play_ultra_ball (s : GameState) (player_id : Nat) : Bool :=
  (s.get_player player_id).hand.cards.length ≥ 3

/-- `execute_ultra_ball` from `ultra_ball.cpp`: reject (handler failure,
state untouched) when the player cannot supply two other cards; otherwise
run `effects::discard_then` for two cards with an empty filter. -/
def execute_ultra_ball (s : GameState) (card : CardInstance) :
    TrainerResult × GameState :=
  let player_id := s.active_player_index
  if !can_play_ultra_ball s player_id then
    ({ success := false,
       effect_description := "Need at least 2 other cards in hand to discard" }, s)
  else
    let r := effects_discard_then s card player_id 2 []
    ({ success := r.1.success
       requires_resolution := r.1.requires_resolution
       effect_description := "Discard 2 cards, then search deck for a Pokemon" },
     r.2)

/-- The trainer table rows added by `register_ultra_ball` (one handler
shared by every printing of the card). -/
def ultra_ball_registry : LogicRegistry :=
  { trainer_handlers :=
      [("sv1-196", execute_ultra_ball),
       ("sv4pt5-91", execute_ultra_ball),
       ("me1-131", execute_ultra_ball)] }

/-- The engine's shuffle source: `std::shuffle(cards, rng)` where `rng`
is a `std::mt19937`.  The permutation drawn for a given generator state
is implementation-defined in C++, so the embedding takes the shuffle as a
parameter that consumes the generator state (a `Nat`) and returns the
permuted list plus the advanced state. -/
def ShuffleFun := Nat → List CardInstance → List CardInstance × Nat

/-- A concrete instantiation of `ShuffleFun` for evaluating the engine on
concrete inputs: rotate the list by the generator value modulo its
length, and advance the generator by a linear-congruential step.  It
stands in for the implementation-defined `std::shuffle` + `mt19937`
pair: like the real one, it permutes the deck as a deterministic function
of the generator state and advances that state. -/
def modelShuffle : ShuffleFun := fun rng cards =>
  let n := cards.length
  let k := if n = 0 then 0 else rng % n
  ((cards.drop k) ++ (cards.take k), (rng * 1103515245 + 12345) % 2147483648)

/-- `PokemonEngine::apply_place_active` from `engine.cpp`. -/
def apply_place_active (db : CardDatabase) (s : GameState) (a : Action) : GameState :=
  match a.card_id with
  | none => s
  | some cid =>
    let player := s.get_player a.player_id
    let r := player.hand.take_card cid
    match r.1 with
    | none => s
    | some card =>
      let card :=
        match db.get_card card.card_id with
        | some d => card.set_current_hp d.hp
        | none => card
      s.set_player a.player_id
        { player with hand := r.2, board := { player.board with active_spot := some card } }

/-- `PokemonEngine::apply_place_bench` from `engine.cpp`. -/
def apply_place_bench (db : CardDatabase) (s : GameState) (a : Action) : GameState :=
  match a.card_id with
  | none => s
  | some cid =>
    let player := s.get_player a.player_id
    let r := player.hand.take_card cid
    match r.1 with
    | none => s
    | some card =>
      let card :=
        match db.get_card card.card_id with
        | some d => card.set_current_hp d.hp
        | none => card
      s.set_player a.player_id
        { player with hand := r.2, board := player.board.add_to_bench card }

/-- `PokemonEngine::apply_play_basic` from `engine.cpp`: place the Basic
on the bench, then run `on_play` hook abilities of its definition that
are not blocked by a passive. -/
def apply_play_basic (db : CardDatabase) (reg : LogicRegistry)
    (s : GameState) (a : Action) : GameState :=
  match a.card_id with
  | none => s
  | some cid =>
    let player := s.get_player a.player_id
    let r := player.hand.take_card cid
    match r.1 with
    | none => s
    | some card =>
      let defOpt := db.get_card card.card_id
      let card :=
        match defOpt with
        | some d => card.set_current_hp d.hp
        | none => card
      let s1 := s.set_player a.player_id
        { player with hand := r.2, board := player.board.add_to_bench card }
      match defOpt with
      | none => s1
      | some d =>
        match ((s1.get_player a.player_id).board.bench).getLast? with
        | none => s1
        | some placed =>
          d.abilities.foldl
            (fun st ab =>
              if ab.category = "hook" && ab.trigger = "on_play" then
                if !reg.is_ability_blocked_by_passive st placed ab.name then
                  (reg.trigger_hooks st "on_play").2
                else st
              else st)
            s1

/-- `PokemonEngine::apply_evolve` from `engine.cpp`: the evolution card
takes over the target's damage, attachments, turns-in-play and evolution
chain, clears status and attack effects, stores the old stage (whose
attachment vectors were moved out), and runs unblocked `on_evolve`
hooks. -/
def apply_evolve (db : CardDatabase) (reg : LogicRegistry)
    (s : GameState) (a : Action) : GameState :=
  match a.card_id, a.target_id with
  | some cid, some tid =>
    let player := s.get_player a.player_id
    let r := player.hand.take_card cid
    match r.1 with
    | none => s
    | some evo =>
      let s1 := s.set_player a.player_id { player with hand := r.2 }
      match (s1.get_player a.player_id).find_pokemon tid with
      | none => s1
      | some old =>
        match db.get_card evo.card_id with
        | none => s1
        | some evo_def =>
          let oldStored := (old.set_attached_energy []).set_attached_tools []
          let evolved : CardInstance :=
            CardInstance.mk evo.id evo.card_id evo.owner_id
              evo_def.hp old.damage_counters 0
              old.attached_energy old.attached_tools
              (old.evolution_chain ++ [old.card_id])
              (evo.previous_stages ++ [oldStored])
              old.turns_in_play true
              evo.abilities_used_this_turn [] evo.is_revealed
          let s2 := s1.modify_player a.player_id
            (fun p => { p with board := p.board.update_pokemon tid (fun _ => evolved) })
          evo_def.abilities.foldl
            (fun st ab =>
              if ab.category = "hook" && ab.trigger = "on_evolve" then
                if !reg.is_ability_blocked_by_passive st evolved ab.name then
                  (reg.trigger_hooks st "on_evolve").2
                else st
              else st)
            s2
  | _, _ => s

/-- `PokemonEngine::apply_attach_energy` from `engine.cpp`.  With
`use_stack=true` in the parameters it pushes an energy-selection step;
otherwise it takes the energy from the hand and appends it to the
target's attachments.  Note that when the target lookup fails AFTER the
hand removal, the taken card is dropped. -/
def apply_attach_energy (s : GameState) (a : Action) : GameState :=
  if (a.parameters.find? (fun p => p.1 == "use_stack")).map Prod.snd = some "true" then
    let step : SelectFromZoneStep :=
      { source_card_id := ""
        source_card_name := "Attach Energy"
        player_id := a.player_id
        purpose := .energyToAttach
        zone := .hand
        count := 1
        min_count := 1
        exact_count := true
        filter_criteria := [("supertype", "Energy")]
        on_complete_callback := some "attach_energy_select_target" }
    s.push_step (.selectFromZone step)
  else
    match a.card_id, a.target_id with
    | some cid, some tid =>
      let player := s.get_player a.player_id
      let r := player.hand.take_card cid
      match r.1 with
      | none => s
      | some energy =>
        let player1 := { player with hand := r.2 }
        match player1.find_pokemon tid with
        | none => s.set_player a.player_id player1
        | some _ =>
          s.set_player a.player_id
            { player1 with
              board := player1.board.update_pokemon tid
                (fun t => t.set_attached_energy (t.attached_energy ++ [energy]))
              energy_attached_this_turn := true }
    | _, _ => s

/-- `PokemonEngine::apply_play_item` from `engine.cpp`: take the card
from the hand, invoke the registered trainer handler (if any), push its
returned steps, and move the card to the discard pile — with NO check of
the handler's `success` flag. -/
def apply_play_item (reg : LogicRegistry) (s : GameState) (a : Action) : GameState :=
  match a.card_id with
  | none => s
  | some cid =>
    let player := s.get_player a.player_id
    let r := player.hand.take_card cid
    match r.1 with
    | none => s
    | some card =>
      let s1 := s.set_player a.player_id { player with hand := r.2 }
      let s2 :=
        if reg.has_trainer card.card_id then
          let inv := reg.invoke_trainer card.card_id s1 card
          inv.1.push_steps.foldl GameState.push_step inv.2
        else s1
      s2.modify_player a.player_id (fun p => { p with discard := p.discard.add_card card })

/-- `PokemonEngine::apply_play_supporter` from `engine.cpp`: same as
`apply_play_item` but also sets `supporter_played_this_turn` before
invoking the handler. -/
def apply_play_supporter (reg : LogicRegistry) (s : GameState) (a : Action) : GameState :=
  match a.card_id with
  | none => s
  | some cid =>
    let player := s.get_player a.player_id
    let r := player.hand.take_card cid
    match r.1 with
    | none => s
    | some card =>
      let s1 := s.set_player a.player_id
        { player with hand := r.2, supporter_played_this_turn := true }
      let s2 :=
        if reg.has_trainer card.card_id then
          let inv := reg.invoke_trainer card.card_id s1 card
          inv.1.push_steps.foldl GameState.push_step inv.2
        else s1
      s2.modify_player a.player_id (fun p => { p with discard := p.discard.add_card card })

/-- `PokemonEngine::apply_play_stadium` from `engine.cpp`: take the card
from the hand, move any current stadium to its owner's discard pile,
install the new stadium and set the player's stadium flag.  No stadium
handler (`on_enter` / `on_leave`) is invoked anywhere in this path. -/
def apply_play_stadium (s : GameState) (a : Action) : GameState :=
  match a.card_id with
  | none => s
  | some cid =>
    let player := s.get_player a.player_id
    let r := player.hand.take_card cid
    match r.1 with
    | none => s
    | some card =>
      let s1 := s.set_player a.player_id { player with hand := r.2 }
      let s2 :=
        match s1.stadium with
        | some old =>
          { (s1.modify_player old.owner_id
              (fun p => { p with discard := p.discard.add_card old })) with
            stadium := none }
        | none => s1
      let s3 := { s2 with stadium := some card }
      s3.modify_player a.player_id (fun p => { p with stadium_played_this_turn := true })

/-- `PokemonEngine::apply_attach_tool` from `engine.cpp`. -/
def apply_attach_tool (s : GameState) (a : Action) : GameState :=
  match a.card_id, a.target_id with
  | some cid, some tid =>
    let player := s.get_player a.player_id
    let r := player.hand.take_card cid
    match r.1 with
    | none => s
    | some tool =>
      let player1 := { player with hand := r.2 }
      match player1.find_pokemon tid with
      | none => s.set_player a.player_id player1
      | some _ =>
        s.set_player a.player_id
          { player1 with
            board := player1.board.update_pokemon tid
              (fun t => t.set_attached_tools (t.attached_tools ++ [tool])) }
  | _, _ => s

/-- `PokemonEngine::apply_use_ability` from `engine.cpp`: mark the
ability used on the Pokemon, then invoke the registered ability callback
(if any) and push its returned steps. -/
def apply_use_ability (reg : LogicRegistry) (s : GameState) (a : Action) : GameState :=
  match a.card_id, a.ability_name with
  | some cid, some name =>
    let player := s.get_player a.player_id
    match player.find_pokemon cid with
    | none => s
    | some pokemon =>
      let marked := pokemon.set_abilities_used
        (if pokemon.abilities_used_this_turn.contains name then
          pokemon.abilities_used_this_turn
        else pokemon.abilities_used_this_turn ++ [name])
      let s1 := s.set_player a.player_id
        { player with board := player.board.update_pokemon cid (fun _ => marked) }
      if reg.has_ability pokemon.card_id name then
        let inv := reg.invoke_ability pokemon.card_id name s1 marked
        inv.1.push_steps.foldl GameState.push_step inv.2
      else s1
  | _, _ => s

/-- `PokemonEngine::apply_retreat` from `engine.cpp`: pop
(modified retreat cost) energy cards off the BACK of the active's
attachment list into the discard pile, switch the active with the chosen
bench Pokemon, and set the retreat flag. -/
def apply_retreat (db : CardDatabase) (reg : LogicRegistry)
    (s : GameState) (a : Action) : GameState :=
  match a.target_id with
  | none => s
  | some tid =>
    let player := s.get_player a.player_id
    match player.board.active_spot with
    | none => s
    | some active =>
      let retreat_cost := calculate_retreat_cost db reg s active
      let k := min retreat_cost.toNat active.attached_energy.length
      let keptLen := active.attached_energy.length - k
      let kept := active.attached_energy.take keptLen
      let discarded := (active.attached_energy.drop keptLen).reverse
      let player1 :=
        { player with
          board := { player.board with active_spot := some (active.set_attached_energy kept) }
          discard := discarded.foldl Zone.add_card player.discard }
      let player2 := { player1 with board := player1.board.switch_active tid }
      s.set_player a.player_id { player2 with retreated_this_turn := true }

/-- `CardDef::get_prize_value` from `card_database.hpp`. -/
def CardDef.get_prize_value (d : CardDef) : Int :=
  if d.is_ex then 2
  else if d.subtypes.contains Subtype.vstar then 2
  else if d.subtypes.contains Subtype.v then 2
  else if d.subtypes.contains Subtype.vmax then 3
  else if d.subtypes.contains Subtype.gx then 2
  else 1

/-- `PokemonEngine::calculate_damage` from `engine.cpp`: base damage
through `damage_dealt` modifiers, weakness, resistance, `damage_taken`
modifiers and the `global_damage` board scan, clamped at 0. -/
def calculate_damage (db : CardDatabase) (reg : LogicRegistry) (s : GameState)
    (attacker defender : CardInstance) (base_damage : Int) : Int :=
  match db.get_card attacker.card_id, db.get_card defender.card_id with
  | some attacker_def, some defender_def =>
    let damage := reg.apply_modifiers s "damage_dealt" base_damage
    let damage :=
      match defender_def.weakness with
      | some w =>
        if attacker_def.types.contains w then damage * defender_def.weakness_multiplier
        else damage
      | none => damage
    let damage :=
      match defender_def.resistance with
      | some rt =>
        if attacker_def.types.contains rt then damage + defender_def.resistance_value
        else damage
      | none => damage
    let damage := reg.apply_modifiers s "damage_taken" damage
    let damage :=
      (reg.scan_global_modifiers s "global_damage").foldl
        (fun dm f => f s "global_damage" dm) damage
    max 0 damage
  | _, _ => base_damage

/-- `PokemonEngine::apply_attack` from `engine.cpp`: resolve the attack
(registry callback or base damage), apply the damage pipeline, apply
returned status effects, handle a knockout (defender and attachments to
the opponent's discard, prizes from the back of the prize pile to the
hand) and advance to Cleanup. -/
def apply_attack (db : CardDatabase) (reg : LogicRegistry)
    (s : GameState) (a : Action) : GameState :=
  match a.attack_name with
  | none => s
  | some aname =>
    let player := s.get_player a.player_id
    let opp_index := 1 - s.active_player_index
    match player.board.active_spot, (s.get_opponent).board.active_spot with
    | some attacker, some _ =>
      match db.get_card attacker.card_id with
      | none => s
      | some attacker_def =>
        match attacker_def.attacks.find? (fun atk => atk.name == aname) with
        | none => s
        | some attack =>
          let inv :=
            if reg.has_attack attacker.card_id attack.name then
              reg.invoke_attack attacker.card_id attack.name s attacker
            else ({}, s)
          let attack_result := inv.1
          let s1 := inv.2
          let base_damage :=
            if attack_result.damage_dealt > 0 then attack_result.damage_dealt
            else attack.base_damage
          let s2 :=
            match (s1.get_player opp_index).board.active_spot with
            | some defender =>
              if base_damage > 0 then
                let final_damage := calculate_damage db reg s1 attacker defender base_damage
                s1.modify_player opp_index (fun p =>
                  { p with board := { p.board with
                      active_spot := some (defender.set_damage_counters
                        (defender.damage_counters + final_damage / 10)) } })
              else s1
            | none => s1
          let s3 :=
            attack_result.add_status.foldl
              (fun st pr =>
                let setStatus := fun (c : CardInstance) =>
                  let bit : Nat :=
                    match pr.2 with
                    | .poisoned => 1
                    | .burned => 2
                    | .asleep => 4
                    | .paralyzed => 8
                    | .confused => 16
                  CardInstance.mk c.id c.card_id c.owner_id c.current_hp
                    c.damage_counters (c.status_flags ||| bit) c.attached_energy
                    c.attached_tools c.evolution_chain c.previous_stages
                    c.turns_in_play c.evolved_this_turn c.abilities_used_this_turn
                    c.attack_effects c.is_revealed
                if ((st.get_player a.player_id).find_pokemon pr.1).isSome then
                  st.modify_player a.player_id (fun p =>
                    { p with board := p.board.update_pokemon pr.1 setStatus })
                else if ((st.get_player opp_index).find_pokemon pr.1).isSome then
                  st.modify_player opp_index (fun p =>
                    { p with board := p.board.update_pokemon pr.1 setStatus })
                else st)
              s2
          let s4 :=
            match (s3.get_player opp_index).board.active_spot with
            | some defender =>
              match db.get_card defender.card_id with
              | some defender_def =>
                if defender.is_knocked_out defender_def.hp then
                  let s5 := s3.modify_player opp_index (fun p =>
                    { p with
                      board := { p.board with active_spot := none }
                      discard :=
                        ((defender.attached_energy ++ defender.attached_tools).foldl
                          Zone.add_card p.discard).add_card
                          ((defender.set_attached_energy []).set_attached_tools []) })
                  let prizes_to_take := defender_def.get_prize_value.toNat
                  s5.modify_player a.player_id (fun p =>
                    let k := min prizes_to_take p.prizes.cards.length
                    let keptLen := p.prizes.cards.length - k
                    let taken := (p.prizes.cards.drop keptLen).reverse
                    { p with
                      prizes := { p.prizes with cards := p.prizes.cards.take keptLen }
                      hand := { p.hand with cards := p.hand.cards ++ taken }
                      prizes_taken := p.prizes_taken + Int.ofNat k })
                else s3
              | none => s3
            | none => s3
          { s4 with current_phase := .cleanup }
    | _, _ => s

/-- `PokemonEngine::start_turn` from `engine.cpp`: reset the active
player's turn flags, draw one card from the top of the deck
(`Zone::draw_top`, index 0) when the deck is non-empty, and advance to
the Main phase. -/
def start_turn (s : GameState) : GameState :=
  let s1 := s.modify_player s.active_player_index (fun p =>
    let p := p.reset_turn_flags
    if !p.deck.is_empty then
      let r := p.deck.draw_top
      match r.1 with
      | some card => { p with deck := r.2, hand := p.hand.add_card card }
      | none => p
    else p)
  { s1 with current_phase := .main }

/-- `PokemonEngine::end_turn` from `engine.cpp`. -/
def end_turn (s : GameState) : GameState :=
  let s1 := s.modify_player s.active_player_index (fun p =>
    let p := p.increment_turns_in_play
    { p with board := { p.board with
        active_spot := p.board.active_spot.map (fun a => a.set_attack_effects []) } })
  let s2 := s1.switch_active_player
  start_turn { s2 with turn_count := s2.turn_count + 1 }

/-- `PokemonEngine::advance_phase` from `engine.cpp`. -/
def advance_phase (s : GameState) : GameState :=
  match s.current_phase with
  | .setup =>
    if s.active_player_index = 1 then
      start_turn { s with current_phase := .draw, active_player_index := s.starting_player_id }
    else s.switch_active_player
  | .draw => { s with current_phase := .main }
  | .attack => { s with current_phase := .cleanup }
  | .cleanup => end_turn s
  | _ => s

/-- `PokemonEngine::apply_take_prize` from `engine.cpp`. -/
def apply_take_prize (s : GameState) (a : Action) : GameState :=
  let player := s.get_player a.player_id
  if player.prizes.is_empty then s
  else
    let index0 := a.choice_index.getD 0
    let index := if index0 < 0 || index0 ≥ player.prizes.count then 0 else index0
    let i := index.toNat
    if i < player.prizes.cards.length then
      match player.prizes.cards[i]? with
      | some prize =>
        s.set_player a.player_id
          { player with
            prizes := { player.prizes with
              cards := player.prizes.cards.take i ++ player.prizes.cards.drop (i + 1) }
            hand := player.hand.add_card prize
            prizes_taken := player.prizes_taken + 1 }
      | none => s
    else s

/-- `PokemonEngine::apply_promote_active` from `engine.cpp`. -/
def apply_promote_active (s : GameState) (a : Action) : GameState :=
  match a.card_id with
  | none => s
  | some cid =>
    s.modify_player a.player_id (fun p => { p with board := p.board.promote_to_active cid })

/-- `PokemonEngine::process_step_completion` from `engine.cpp`: pop the
top step and run its completion.  A completed `SearchDeckStep` moves each
selected card from the deck to its destination — dropping it entirely
when the destination is the bench and the bench is full — then shuffles
the deck with the ENGINE's own generator (`rng_`), which is threaded here
as the explicit `rng` argument, separate from the game state. -/
def process_step_completion (shuffle : ShuffleFun) (db : CardDatabase)
    (rng : Nat) (s : GameState) : GameState × Nat :=
  match s.resolution_stack.head? with
  | none => (s, rng)
  | some step =>
    match step with
    | .selectFromZone sel =>
      if sel.on_complete_callback = some "attach_energy_select_target" then
        let s1 := s.pop_step
        match sel.selected_card_ids with
        | [] => (s1, rng)
        | energy_id :: _ =>
          let player := s1.get_player sel.player_id
          let attach_step : AttachToTargetStep :=
            { source_card_id := energy_id
              source_card_name := "Attach Energy"
              player_id := sel.player_id
              purpose := .attachTarget
              card_to_attach_id := energy_id
              valid_target_ids := player.board.get_all_pokemon.map CardInstance.id
              on_complete_callback := some "attach_energy_complete" }
          (s1.push_step (.attachToTarget attach_step), rng)
      else (s.pop_step, rng)
    | .attachToTarget at_step =>
      if at_step.on_complete_callback = some "attach_energy_complete" then
        let s1 := s.pop_step
        match at_step.selected_target_id with
        | none => (s1, rng)
        | some tid =>
          let player := s1.get_player at_step.player_id
          let r := player.hand.take_card at_step.card_to_attach_id
          match r.1 with
          | none => (s1, rng)
          | some energy =>
            let player1 := { player with hand := r.2 }
            match player1.find_pokemon tid with
            | none => (s1.set_player at_step.player_id player1, rng)
            | some _ =>
              (s1.set_player at_step.player_id
                { player1 with
                  board := player1.board.update_pokemon tid
                    (fun t => t.set_attached_energy (t.attached_energy ++ [energy]))
                  energy_attached_this_turn := true }, rng)
      else (s.pop_step, rng)
    | .searchDeck sd =>
      let s1 := s.pop_step
      let player := s1.get_player sd.player_id
      let player2 :=
        sd.selected_card_ids.foldl
          (fun pl cid =>
            let r := pl.deck.take_card cid
            let pl := { pl with deck := r.2 }
            match r.1 with
            | none => pl
            | some card =>
              match sd.destination with
              | .hand => { pl with hand := pl.hand.add_card card }
              | .bench =>
                if pl.board.can_add_to_bench then
                  let card :=
                    match db.get_card card.card_id with
                    | some d => card.set_current_hp d.hp
                    | none => card
                  { pl with board := pl.board.add_to_bench card }
                else pl
              | _ => { pl with hand := pl.hand.add_card card })
          player
      if sd.shuffle_after then
        let sh := shuffle rng player2.deck.cards
        (s1.set_player sd.player_id
          { player2 with deck := { player2.deck with cards := sh.1 } }, sh.2)
      else (s1.set_player sd.player_id player2, rng)
    | .evolveTarget _ => (s.pop_step, rng)

/-- `PokemonEngine::apply_select_card` from `engine.cpp`: record the
selection on the top step and auto-complete (processing the completion)
when the step's count is reached. -/
def apply_select_card (shuffle : ShuffleFun) (db : CardDatabase)
    (rng : Nat) (s : GameState) (a : Action) : GameState × Nat :=
  match a.card_id with
  | none => (s, rng)
  | some cid =>
    match s.resolution_stack with
    | [] => (s, rng)
    | step :: rest =>
      match step with
      | .selectFromZone sel =>
        let sel1 := { sel with selected_card_ids := sel.selected_card_ids ++ [cid] }
        if sel1.exact_count &&
            Int.ofNat sel1.selected_card_ids.length = sel1.count then
          let sel2 := { sel1 with is_complete := true }
          process_step_completion shuffle db rng
            { s with resolution_stack := .selectFromZone sel2 :: rest }
        else ({ s with resolution_stack := .selectFromZone sel1 :: rest }, rng)
      | .searchDeck sd =>
        let sd1 := { sd with selected_card_ids := sd.selected_card_ids ++ [cid] }
        if Int.ofNat sd1.selected_card_ids.length = sd1.count then
          let sd2 := { sd1 with is_complete := true }
          process_step_completion shuffle db rng
            { s with resolution_stack := .searchDeck sd2 :: rest }
        else ({ s with resolution_stack := .searchDeck sd1 :: rest }, rng)
      | .attachToTarget at_step =>
        let at1 := { at_step with selected_target_id := some cid, is_complete := true }
        process_step_completion shuffle db rng
          { s with resolution_stack := .attachToTarget at1 :: rest }
      | .evolveTarget _ => (s, rng)

/-- `PokemonEngine::apply_confirm_selection` from `engine.cpp`: mark the
top step complete and process its completion. -/
def apply_confirm_selection (shuffle : ShuffleFun) (db : CardDatabase)
    (rng : Nat) (s : GameState) : GameState × Nat :=
  match s.resolution_stack with
  | [] => (s, rng)
  | step :: rest =>
    let step1 :=
      match step with
      | .selectFromZone sel => ResolutionStep.selectFromZone { sel with is_complete := true }
      | .searchDeck sd => .searchDeck { sd with is_complete := true }
      | .attachToTarget at_step => .attachToTarget { at_step with is_complete := true }
      | .evolveTarget ev => .evolveTarget { ev with is_complete := true }
    process_step_completion shuffle db rng { s with resolution_stack := step1 :: rest }

/-- The loop body of `PokemonEngine::check_win_conditions` from
`engine.cpp`: whether any of the three win conditions holds for
`player_id` — opponent has no Pokemon in play (outside Setup), all own
prizes taken, or opponent's deck empty during the Draw phase. -/
def win_condition_met (s : GameState) (player_id : Nat) : Bool :=
  let opponent_id := 1 - player_id
  (!(s.get_player opponent_id).has_any_pokemon_in_play &&
    s.current_phase ≠ GamePhase.setup) ||
  ((s.get_player player_id).prizes.is_empty &&
    (s.get_player player_id).prizes_taken > 0) ||
  ((s.get_player opponent_id).deck.is_empty &&
    s.current_phase = GamePhase.draw)

/-- `PokemonEngine::check_win_conditions` from `engine.cpp`: scan player
0 before player 1 (the C++ `for (player_id = 0; ...)` with early
`return`), so the FIRST player in index order with a satisfied condition
wins. -/
def check_win_conditions (s : GameState) : GameState :=
  if s.is_game_over then s
  else if win_condition_met s 0 then
    { s with result := .player0Win, winner_id := some 0 }
  else if win_condition_met s 1 then
    { s with result := .player1Win, winner_id := some 1 }
  else s

/-- `PokemonEngine::apply_action` from `engine.cpp` (dispatch by action
kind; the engine generator state is threaded through the selection
branches for the deck shuffle). -/
def apply_action (shuffle : ShuffleFun) (db : CardDatabase) (reg : LogicRegistry)
    (rng : Nat) (s : GameState) (a : Action) : GameState × Nat :=
  match a.action_type with
  | .placeActive => (apply_place_active db s a, rng)
  | .placeBench => (apply_place_bench db s a, rng)
  | .playBasic => (apply_play_basic db reg s a, rng)
  | .evolve => (apply_evolve db reg s a, rng)
  | .attachEnergy => (apply_attach_energy s a, rng)
  | .playItem => (apply_play_item reg s a, rng)
  | .playSupporter => (apply_play_supporter reg s a, rng)
  | .playStadium => (apply_play_stadium s a, rng)
  | .attachTool => (apply_attach_tool s a, rng)
  | .useAbility => (apply_use_ability reg s a, rng)
  | .retreat => (apply_retreat db reg s a, rng)
  | .attack => (apply_attack db reg s a, rng)
  | .endTurn => (end_turn s, rng)
  | .takePrize => (apply_take_prize s a, rng)
  | .promoteActive => (apply_promote_active s a, rng)
  | .selectCard => apply_select_card shuffle db rng s a
  | .confirmSelection => apply_confirm_selection shuffle db rng s
  | _ => (s, rng)

/-- `PokemonEngine::step_inplace` from `engine.cpp`: apply the action,
check win conditions, and auto-advance out of Cleanup when no resolution
is pending. -/
def step_inplace (shuffle : ShuffleFun) (db : CardDatabase) (reg : LogicRegistry)
    (rng : Nat) (s : GameState) (a : Action) : GameState × Nat :=
  let r := apply_action shuffle db reg rng s a
  let s2 := check_win_conditions r.1
  if s2.current_phase = GamePhase.cleanup && s2.resolution_stack.isEmpty then
    (advance_phase s2, r.2)
  else (s2, r.2)

/-- `PokemonEngine::step` from `engine.cpp`: clone then `step_inplace`
(cloning is the identity on immutable values). -/
def step (shuffle : ShuffleFun) (db : CardDatabase) (reg : LogicRegistry)
    (rng : Nat) (s : GameState) (a : Action) : GameState × Nat :=
  step_inplace shuffle db reg rng s a

mutual

/-- All instance ids carried by a card: its own id plus (recursively)
those of its attached energy, attached tools and previous stages.  This
realizes the spec's "multiset of in-game card instances" for one card. -/
def CardInstance.collect_ids : CardInstance → List String
  | .mk i _ _ _ _ _ ae tl _ ps _ _ _ _ _ =>
    i :: (collect_ids_list ae ++ collect_ids_list tl ++ collect_ids_list ps)

/-- `CardInstance.collect_ids` over a list of cards. -/
def collect_ids_list : List CardInstance → List String
  | [] => []
  | c :: cs => c.collect_ids ++ collect_ids_list cs

end

/-- All instance ids held anywhere by one player: the four zones plus the
board (active slot and bench), attachments and previous stages
included. -/
def PlayerState.all_card_ids (p : PlayerState) : List String :=
  collect_ids_list p.deck.cards ++ collect_ids_list p.hand.cards ++
    collect_ids_list p.discard.cards ++ collect_ids_list p.prizes.cards ++
    collect_ids_list p.board.get_all_pokemon

/-- The multiset (as a list) of every instance id in the game state: both
players' holdings plus the stadium slot — the quantity the spec's card
conservation invariant is about. -/
def GameState.all_card_ids (s : GameState) : List String :=
  s.player0.all_card_ids ++ s.player1.all_card_ids ++
    (match s.stadium with | some st => st.collect_ids | none => [])

/-- Follows the spec's words (refinement comparison for the stadium
claim): playing a stadium moves the old stadium to its owner's discard
pile, fires the old stadium's `on_leave` handler and the new stadium's
`on_enter` handler, installs the new stadium, and sets the player's
stadium-played turn flag. -/
def apply_play_stadium_spec (reg : LogicRegistry) (s : GameState) (a : Action) : GameState :=
  match a.card_id with
  | none => s
  | some cid =>
    let player := s.get_player a.player_id
    let r := player.hand.take_card cid
    match r.1 with
    | none => s
    | some card =>
      let s1 := s.set_player a.player_id { player with hand := r.2 }
      let s2 :=
        match s1.stadium with
        | some old =>
          let t := reg.invoke_stadium_on_leave old.card_id s1 a.player_id
          { (t.modify_player old.owner_id
              (fun p => { p with discard := p.discard.add_card old })) with
            stadium := none }
        | none => s1
      let s3 := reg.invoke_stadium_on_enter card.card_id { s2 with stadium := some card }
      s3.modify_player a.player_id (fun p => { p with stadium_played_this_turn := true })

/-- The spec's wording of attack-cost payability: every non-Colorless
cost slot is funded by its exactly matching provided-energy bucket, and
the energy remaining after those payments covers the Colorless slots. -/
def spec_energy_payable (provided : EnergyType → Nat) (cost : List EnergyType) : Prop :=
  (∀ t, t ≠ EnergyType.colorless → cost.count t ≤ provided t) ∧
  cost.count EnergyType.colorless ≤
    (EnergyType.all.map
      (fun t => provided t - (if t = EnergyType.colorless then 0 else cost.count t))).sum

/-- The recognized filter keys named by the specification. -/
def recognized_filter_keys : List String :=
  ["supertype", "subtype", "pokemon_type", "energy_type", "max_hp", "name",
   "evolves_from", "is_basic", "is_basic_energy", "rare_candy_target",
   "super_rod_target", "night_stretcher_target"]

/-- The nine-element enumeration is complete. -/
lemma EnergyType.mem_all (t : EnergyType) : t ∈ EnergyType.all := by
  cases t <;> simp [EnergyType.all]

/-- Reading back the player slot just written. -/
lemma GameState.get_set_same (s : GameState) (i : Nat) (p : PlayerState) :
    (s.set_player i p).get_player i = p := by
  by_cases h : i = 0 <;> simp [GameState.set_player, GameState.get_player, h]

/-- Writing the same player slot twice keeps only the second write. -/
lemma GameState.set_set_same (s : GameState) (i : Nat) (p q : PlayerState) :
    (s.set_player i p).set_player i q = s.set_player i q := by
  by_cases h : i = 0 <;> simp [GameState.set_player, h]

/-- Modifying a freshly written slot composes into one write. -/
lemma GameState.modify_set_same (s : GameState) (i : Nat) (p : PlayerState)
    (f : PlayerState → PlayerState) :
    (s.set_player i p).modify_player i f = s.set_player i (f p) := by
  simp [GameState.modify_player, GameState.get_set_same, GameState.set_set_same]

/-- Writing a player slot does not change the active-player index. -/
lemma GameState.set_player_active_index (s : GameState) (i : Nat) (p : PlayerState) :
    (s.set_player i p).active_player_index = s.active_player_index := by
  by_cases h : i = 0 <;> simp [GameState.set_player, h]

/-- Writing a player slot does not change the stadium slot. -/
lemma GameState.set_player_stadium (s : GameState) (i : Nat) (p : PlayerState) :
    (s.set_player i p).stadium = s.stadium := by
  by_cases h : i = 0 <;> simp [GameState.set_player, h]

/-- Writing a player slot does not change the resolution stack. -/
lemma GameState.set_player_stack (s : GameState) (i : Nat) (p : PlayerState) :
    (s.set_player i p).resolution_stack = s.resolution_stack := by
  by_cases h : i = 0 <;> simp [GameState.set_player, h]

/-- Writing a player slot leaves the other player's slot unchanged. -/
lemma GameState.get_set_other (s : GameState) (i : Nat) (p : PlayerState) :
    (s.set_player i p).get_player (1 - i) = s.get_player (1 - i) := by
  by_cases h : i = 0
  · simp [h, GameState.set_player, GameState.get_player]
  · have h1 : 1 - i = 0 := by omega
    simp [h1, GameState.set_player, GameState.get_player, h]

/-- Reading the slot just modified applies the modification. -/
lemma GameState.get_modify_same (s : GameState) (i : Nat) (f : PlayerState → PlayerState) :
    (s.modify_player i f).get_player i = f (s.get_player i) := by
  simp [GameState.modify_player, GameState.get_set_same]

/-- Modifying a player slot does not change the stadium slot. -/
lemma GameState.modify_player_stadium (s : GameState) (i : Nat) (f : PlayerState → PlayerState) :
    (s.modify_player i f).stadium = s.stadium := by
  simp [GameState.modify_player, GameState.set_player_stadium]

/-- A successful `extractById` removes exactly one element. -/
lemma extractById_length {l : List CardInstance} {i : String} {c : CardInstance}
    (h : (extractById l i).1 = some c) :
    (extractById l i).2.length + 1 = l.length := by
  induction l with
  | nil => simp [extractById] at h
  | cons x xs ih =>
    by_cases hx : x.id = i
    · simp [extractById, hx]
    · simp only [extractById, hx, if_false] at h ⊢
      simpa using ih h

/-- `can_pay_energy_cost` decides exactly the spec's payability
predicate: no specific type underfunded, and the remainder covers the
Colorless slots. -/
lemma can_pay_energy_cost_iff (provided : EnergyType → Nat) (cost : List EnergyType) :
    can_pay_energy_cost provided cost = true ↔ spec_energy_payable provided cost := by
  unfold can_pay_energy_cost spec_energy_payable
  by_cases hc : cost.isEmpty
  · have : cost = [] := by simpa [List.isEmpty_iff] using hc
    subst this
    simp
  · simp only [hc, if_false]
    by_cases hall :
        EnergyType.all.all
          (fun t => decide ((if t = EnergyType.colorless then 0 else cost.count t) ≤ provided t)) = true
    · rw [if_pos hall]
      have hspec : ∀ t, t ≠ EnergyType.colorless → cost.count t ≤ provided t := by
        intro t ht
        have := (List.all_eq_true.mp hall) t (EnergyType.mem_all t)
        simpa [ht] using this
      constructor
      · intro hdec
        exact ⟨hspec, by simpa using hdec⟩
      · intro hsp
        simpa using hsp.2
    · rw [if_neg hall]
      constructor
      · intro h; exact absurd h (by simp)
      · intro hsp
        exfalso
        apply hall
        refine List.all_eq_true.mpr ?_
        intro t _
        by_cases ht : t = EnergyType.colorless
        · simp [ht]
        · simpa [ht] using hsp.1 t ht

/-! ## Concrete scenario inputs used by the claim theorems and witnesses -/

/-- A Basic Fire Pokemon definition with one attack costing
Fire + Colorless. -/
def c4PokeDef : CardDef :=
  { card_id := "poke-1", name := "Flareling", supertype := .pokemon,
    subtypes := [.basic], hp := 60, types := [.fire], retreat_cost := 1,
    attacks := [{ name := "Ember", cost := [.fire, .colorless], base_damage := 30 }] }

/-- A basic Fire energy definition. -/
def fireEnergyDef : CardDef :=
  { card_id := "fire-en", name := "Fire Energy", supertype := .energy,
    is_basic_energy := true, energy_type := .fire }

/-- Database holding the two definitions above. -/
def c4Db : CardDatabase := [("poke-1", c4PokeDef), ("fire-en", fireEnergyDef)]

/-- An active Pokemon with two Fire energies attached. -/
def c4Active : CardInstance :=
  (mkCard "a1" "poke-1").set_attached_energy [mkCard "e1" "fire-en", mkCard "e2" "fire-en"]

/-- A turn-2 Main-phase state whose active player 0 controls `c4Active`. -/
def c4State : GameState :=
  { player0 := { player_id := 0, board := { active_spot := some c4Active } }
    turn_count := 2
    current_phase := .main }

/-! ## Claim theorems -/

/-- C4: an `Attack` action for an attack is generated for the active
Pokemon iff its cost is payable from the active's provided-energy
multiset (basic energy one of its own type, special energy its
`provides` list or one Colorless when empty), where payability means:
no non-Colorless cost slot is underfunded by its exactly matching type
bucket, and the total energy remaining after those payments covers the
Colorless slots.  The side conditions of the attack generator (an active
exists with a definition, it is neither Asleep nor Paralyzed, carries no
`cannot_attack_next_turn` effect, and it is not the starting player's
first turn) are hypotheses. -/
theorem attack_action_generated_iff_cost_payable
    (db : CardDatabase) (s : GameState) (active : CardInstance)
    (d : CardDef) (n : String)
    (hact : (s.get_active_player).board.active_spot = some active)
    (hstat : active.is_asleep_or_paralyzed = false)
    (heff : active.attack_effects.contains "cannot_attack_next_turn" = false)
    (hturn : s.turn_count ≠ 1 ∨ s.active_player_index ≠ s.starting_player_id)
    (hdef : db.get_card active.card_id = some d) :
    (Action.attack (s.get_active_player).player_id active.id n ∈ get_attack_actions db s)
      ↔ ∃ atk ∈ d.attacks, atk.name = n ∧
          spec_energy_payable (calculate_provided_energy db active) atk.cost := by
  have hbool : (decide (s.turn_count = 1) &&
      decide (s.active_player_index = s.starting_player_id)) = false := by
    rcases hturn with h | h <;> simp [h]
  rw [get_attack_actions]
  simp only [hact, hstat, heff, hbool, hdef]
  simp only [Bool.false_eq_true, if_false, List.mem_map, List.mem_filter]
  constructor
  · rintro ⟨atk, ⟨hmem, hpay⟩, heq⟩
    have hname : atk.name = n := by
      simpa [Action.attack, Action.mk.injEq] using heq
    exact ⟨atk, hmem, hname,
      (can_pay_energy_cost_iff _ _).mp (by simpa [has_energy_for_attack] using hpay)⟩
  · rintro ⟨atk, hmem, hname, hpay⟩
    refine ⟨atk, ⟨hmem, ?_⟩, by simp [Action.attack, hname]⟩
    simpa [has_energy_for_attack] using (can_pay_energy_cost_iff _ _).mpr hpay

/-- C4 witness: the theorem instantiated on a concrete state — a Fire
Pokemon with two Fire energies and the attack "Ember" costing
Fire + Colorless. -/
theorem attack_action_generated_iff_cost_payable_witness :
    (c4State.get_active_player).board.active_spot = some c4Active ∧
    c4Active.is_asleep_or_paralyzed = false ∧
    c4Active.attack_effects.contains "cannot_attack_next_turn" = false ∧
    c4State.turn_count ≠ 1 ∧
    c4Db.get_card c4Active.card_id = some c4PokeDef ∧
    ((Action.attack (c4State.get_active_player).player_id c4Active.id "Ember" ∈
        get_attack_actions c4Db c4State) ↔
      ∃ atk ∈ c4PokeDef.attacks, atk.name = "Ember" ∧
        spec_energy_payable (calculate_provided_energy c4Db c4Active) atk.cost) :=
  ⟨rfl, by decide, by decide, by decide, rfl,
    attack_action_generated_iff_cost_payable c4Db c4State c4Active c4PokeDef "Ember"
      rfl (by decide) (by decide) (Or.inl (by decide)) rfl⟩

/-- A Pokemon in play with no registered ability callback (claim C10). -/
def c10Pokemon : CardInstance := mkCard "p1" "poke-x"

/-- State whose player 0 controls `c10Pokemon` as the active. -/
def c10State : GameState :=
  { player0 := { player_id := 0, board := { active_spot := some c10Pokemon } } }

/-- The `UseAbility` action for `c10Pokemon`. -/
def c10Action : Action := Action.use_ability 0 "p1" "Mystic Gaze"

/-- A registry with no callbacks of any kind. -/
def emptyRegistry : LogicRegistry := {}

/-- C10: applying a `UseAbility` action for a Pokemon in play whose
(card, ability) pair has no callback in the logic registry changes
exactly the Pokemon's abilities-used-this-turn set — the name is
inserted — and nothing else: the state equals the original with only
that board entry updated, and in particular the resolution stack, the
stadium, the other player, and the acting player's four zones are
untouched. -/
theorem use_ability_without_callback_only_marks_used
    (reg : LogicRegistry) (s : GameState) (a : Action) (cid name : String)
    (pokemon : CardInstance)
    (hcid : a.card_id = some cid)
    (hname : a.ability_name = some name)
    (hfind : (s.get_player a.player_id).find_pokemon cid = some pokemon)
    (hreg : reg.has_ability pokemon.card_id name = false) :
    apply_use_ability reg s a =
      s.set_player a.player_id
        { s.get_player a.player_id with
          board := (s.get_player a.player_id).board.update_pokemon cid
            (fun _ => pokemon.set_abilities_used
              (if pokemon.abilities_used_this_turn.contains name then
                pokemon.abilities_used_this_turn
              else pokemon.abilities_used_this_turn ++ [name])) } ∧
    (apply_use_ability reg s a).resolution_stack = s.resolution_stack ∧
    (apply_use_ability reg s a).stadium = s.stadium ∧
    (apply_use_ability reg s a).get_player (1 - a.player_id) =
      s.get_player (1 - a.player_id) ∧
    ((apply_use_ability reg s a).get_player a.player_id).hand =
      (s.get_player a.player_id).hand ∧
    ((apply_use_ability reg s a).get_player a.player_id).deck =
      (s.get_player a.player_id).deck ∧
    ((apply_use_ability reg s a).get_player a.player_id).discard =
      (s.get_player a.player_id).discard ∧
    ((apply_use_ability reg s a).get_player a.player_id).prizes =
      (s.get_player a.player_id).prizes := by
  have hmain : apply_use_ability reg s a =
      s.set_player a.player_id
        { s.get_player a.player_id with
          board := (s.get_player a.player_id).board.update_pokemon cid
            (fun _ => pokemon.set_abilities_used
              (if pokemon.abilities_used_this_turn.contains name then
                pokemon.abilities_used_this_turn
              else pokemon.abilities_used_this_turn ++ [name])) } := by
    rw [apply_use_ability, hcid, hname]
    simp only [hfind, hreg, Bool.false_eq_true, if_false]
  refine ⟨hmain, ?_, ?_, ?_, ?_, ?_, ?_, ?_⟩ <;>
    rw [hmain] <;>
    simp [GameState.set_player_stack, GameState.set_player_stadium,
      GameState.get_set_other, GameState.get_set_same]

/-- C10 witness: the theorem instantiated on a concrete Pokemon, an empty
registry and a concrete `UseAbility` action. -/
theorem use_ability_without_callback_only_marks_used_witness :
    c10Action.card_id = some "p1" ∧
    c10Action.ability_name = some "Mystic Gaze" ∧
    (c10State.get_player c10Action.player_id).find_pokemon "p1" = some c10Pokemon ∧
    emptyRegistry.has_ability c10Pokemon.card_id "Mystic Gaze" = false ∧
    apply_use_ability emptyRegistry c10State c10Action =
      c10State.set_player c10Action.player_id
        { c10State.get_player c10Action.player_id with
          board := (c10State.get_player c10Action.player_id).board.update_pokemon "p1"
            (fun _ => c10Pokemon.set_abilities_used
              (if c10Pokemon.abilities_used_this_turn.contains "Mystic Gaze" then
                c10Pokemon.abilities_used_this_turn
              else c10Pokemon.abilities_used_this_turn ++ ["Mystic Gaze"])) } :=
  ⟨rfl, rfl, rfl, rfl,
    (use_ability_without_callback_only_marks_used emptyRegistry c10State c10Action
      "p1" "Mystic Gaze" c10Pokemon rfl rfl rfl rfl).1⟩

/-- The stadium sitting in play for claim C5, owned by player 1. -/
def c5OldStadium : CardInstance := mkCard "st-old" "stad-old" 1

/-- The stadium played from hand for claim C5. -/
def c5NewStadium : CardInstance := mkCard "st-new" "stad-new" 0

/-- A state with `c5OldStadium` in play and `c5NewStadium` in player 0's
hand. -/
def c5State : GameState :=
  { player0 :=
      { player_id := 0
        hand := { cards := [c5NewStadium], is_ordered := false, is_private := true } }
    stadium := some c5OldStadium }

/-- The `PlayStadium` action for `c5NewStadium`. -/
def c5Action : Action := Action.play_stadium 0 "st-new"

/-- A registry whose stadium handlers leave visible marks: the new
stadium's `on_enter` writes `turn_metadata`, the old stadium's `on_leave`
writes `last_turn_metadata`. -/
def c5Registry : LogicRegistry :=
  { stadium_handlers :=
      [("stad-new",
        { on_enter := some (fun st => { st with turn_metadata := [("stadium_entered", "1")] }) }),
       ("stad-old",
        { on_leave := some (fun st _ => { st with last_turn_metadata := [("stadium_left", "1")] }) })] }

/-- C5 counterexample: with observable stadium handlers registered,
`apply_play_stadium` leaves no trace of either hook — the spec-worded
application (which does fire `on_leave` and `on_enter`) marks both — so
the claim that applying `PlayStadium` fires the old stadium's `on_leave`
and the new stadium's `on_enter` is false on this concrete input. -/
theorem play_stadium_fires_no_hooks_counterexample :
    (apply_play_stadium c5State c5Action).turn_metadata = [] ∧
    (apply_play_stadium c5State c5Action).last_turn_metadata = [] ∧
    (apply_play_stadium_spec c5Registry c5State c5Action).turn_metadata =
      [("stadium_entered", "1")] ∧
    (apply_play_stadium_spec c5Registry c5State c5Action).last_turn_metadata =
      [("stadium_left", "1")] :=
  ⟨rfl, rfl, rfl, rfl⟩

/-- C5 amended: applying a `PlayStadium` action when a stadium is already
in play moves the old stadium to its owner's discard pile, installs the
new stadium and sets the player's stadium-played turn flag — but fires
NO stadium handler: it coincides with the spec-worded application exactly
when no stadium handlers are registered. -/
theorem play_stadium_replaces_and_discards_without_hooks
    (s : GameState) (a : Action) (cid : String) (card old : CardInstance)
    (hcid : a.card_id = some cid)
    (htake : ((s.get_player a.player_id).hand.take_card cid).1 = some card)
    (hstad : s.stadium = some old) :
    (apply_play_stadium s a).stadium = some card ∧
    ((apply_play_stadium s a).get_player old.owner_id).discard.cards =
      (s.get_player old.owner_id).discard.cards ++ [old] ∧
    ((apply_play_stadium s a).get_player a.player_id).stadium_played_this_turn = true ∧
    ((apply_play_stadium s a).get_player a.player_id).hand =
      ((s.get_player a.player_id).hand.take_card cid).2 ∧
    (∀ reg : LogicRegistry, reg.stadium_handlers = [] →
      apply_play_stadium_spec reg s a = apply_play_stadium s a) := by
  have hstad1 : (s.set_player a.player_id
      { s.get_player a.player_id with
        hand := ((s.get_player a.player_id).hand.take_card cid).2 }).stadium = some old := by
    rw [GameState.set_player_stadium, hstad]
  have h5 : ∀ reg : LogicRegistry, reg.stadium_handlers = [] →
      apply_play_stadium_spec reg s a = apply_play_stadium s a := by
    intro reg hreg
    rw [apply_play_stadium_spec, apply_play_stadium, hcid]
    simp only [htake, hstad1]
    simp [LogicRegistry.invoke_stadium_on_enter, LogicRegistry.invoke_stadium_on_leave, hreg]
  refine ⟨?_, ?_, ?_, ?_, h5⟩ <;>
    rw [apply_play_stadium, hcid] <;>
    simp only [htake, hstad1] <;>
    by_cases hp : a.player_id = 0 <;> by_cases ho : old.owner_id = 0 <;>
      simp [GameState.modify_player, GameState.set_player, GameState.get_player,
        hp, ho, Zone.add_card]

/-- C5 witness: the amended theorem instantiated on the concrete stadium
scenario. -/
theorem play_stadium_replaces_and_discards_without_hooks_witness :
    c5Action.card_id = some "st-new" ∧
    ((c5State.get_player c5Action.player_id).hand.take_card "st-new").1 = some c5NewStadium ∧
    c5State.stadium = some c5OldStadium ∧
    ((apply_play_stadium c5State c5Action).stadium = some c5NewStadium ∧
      ((apply_play_stadium c5State c5Action).get_player c5OldStadium.owner_id).discard.cards =
        (c5State.get_player c5OldStadium.owner_id).discard.cards ++ [c5OldStadium] ∧
      ((apply_play_stadium c5State c5Action).get_player c5Action.player_id).stadium_played_this_turn = true ∧
      ((apply_play_stadium c5State c5Action).get_player c5Action.player_id).hand =
        ((c5State.get_player c5Action.player_id).hand.take_card "st-new").2 ∧
      (∀ reg : LogicRegistry, reg.stadium_handlers = [] →
        apply_play_stadium_spec reg c5State c5Action = apply_play_stadium c5State c5Action)) :=
  ⟨rfl, rfl, rfl,
    play_stadium_replaces_and_discards_without_hooks c5State c5Action "st-new"
      c5NewStadium c5OldStadium rfl rfl rfl⟩

/-- A state for claim C7 in which BOTH players' win conditions hold at
once while player 1 is the active player: player 1 has taken all six
prizes, and player 1's deck is empty during the Draw phase (player 0's
deck-out condition against the opponent). -/
def c7State : GameState :=
  { player0 :=
      { player_id := 0
        board := { active_spot := some (mkCard "p0a" "poke-1" 0) }
        deck := { cards := [mkCard "p0d" "poke-1" 0], is_hidden := true }
        prizes := { cards := [mkCard "p0z" "poke-1" 0], is_hidden := true } }
    player1 :=
      { player_id := 1
        board := { active_spot := some (mkCard "p1a" "poke-1" 1) }
        prizes_taken := 6 }
    active_player_index := 1
    current_phase := .draw }

/-- C7 counterexample: in `c7State` the win conditions of both players
are satisfied simultaneously and the active player is player 1, yet
`check_win_conditions` names player 0 the winner — refuting the claim
that the active player wins a two-way tie. -/
theorem simultaneous_win_goes_to_player0_counterexample :
    win_condition_met c7State 0 = true ∧
    win_condition_met c7State 1 = true ∧
    c7State.active_player_index = 1 ∧
    (check_win_conditions c7State).result = GameResult.player0Win ∧
    (check_win_conditions c7State).winner_id = some 0 := by
  decide

/-- C7 amended: on simultaneous satisfaction of both players' win
conditions the game goes to the player with the LOWER index — the scan
order of `check_win_conditions` (player 0's conditions before player
1's) decides, irrespective of which player is active. -/
theorem simultaneous_win_scan_order_player0_first
    (s : GameState)
    (hongoing : s.is_game_over = false)
    (h0 : win_condition_met s 0 = true)
    (h1 : win_condition_met s 1 = true) :
    (check_win_conditions s).result = GameResult.player0Win ∧
    (check_win_conditions s).winner_id = some 0 := by
  rw [check_win_conditions]
  simp [hongoing, h0]

/-- C7 witness: the amended theorem instantiated on `c7State`. -/
theorem simultaneous_win_scan_order_player0_first_witness :
    c7State.is_game_over = false ∧
    win_condition_met c7State 0 = true ∧
    win_condition_met c7State 1 = true ∧
    ((check_win_conditions c7State).result = GameResult.player0Win ∧
      (check_win_conditions c7State).winner_id = some 0) :=
  ⟨by decide, by decide, by decide,
    simultaneous_win_scan_order_player0_first c7State (by decide) (by decide) (by decide)⟩

/-- An Ultra Ball instance for claim C3. -/
def c3UltraBall : CardInstance := mkCard "ub1" "sv1-196" 0

/-- The single other card in hand for claim C3. -/
def c3OtherCard : CardInstance := mkCard "c1" "poke-1" 0

/-- A state whose player 0 holds only Ultra Ball and one other card —
fewer than the two other cards Ultra Ball's handler demands. -/
def c3State : GameState :=
  { player0 :=
      { player_id := 0
        hand := { cards := [c3UltraBall, c3OtherCard], is_ordered := false,
                  is_private := true } } }

/-- The `PlayItem` action for the Ultra Ball of `c3State`. -/
def c3Action : Action := Action.play_item 0 "ub1"

/-- The state the Ultra Ball handler actually receives: `c3State` with
the Ultra Ball already removed from the hand. -/
def c3MidState : GameState :=
  c3State.set_player 0
    { c3State.get_player 0 with
      hand := ((c3State.get_player 0).hand.take_card "ub1").2 }

/-- C3 counterexample: the Ultra Ball handler reports failure
(`success = false`), yet applying the `PlayItem` action does NOT leave
the state unchanged — the card leaves the hand and lands in the discard
pile — refuting the claim that a handler failure is surfaced as a no-op
with the card staying in hand. -/
theorem handler_failure_not_a_noop_counterexample :
    (execute_ultra_ball c3MidState c3UltraBall).1.success = false ∧
    (c3State.get_player 0).hand.cards.map CardInstance.id = ["ub1", "c1"] ∧
    ((apply_play_item ultra_ball_registry c3State c3Action).get_player 0).hand.cards.map
      CardInstance.id = ["c1"] ∧
    ((apply_play_item ultra_ball_registry c3State c3Action).get_player 0).discard.cards.map
      CardInstance.id = ["ub1"] ∧
    (apply_play_item ultra_ball_registry c3State c3Action).resolution_stack.isEmpty = true := by
  decide

/-- C3 amended: when the trainer handler reports failure (Ultra Ball with
fewer than two other cards in hand), `apply_play_item` pushes no
resolution step and leaves everything unchanged EXCEPT that the played
card is still moved from the hand to the discard pile. -/
theorem handler_failure_still_discards_card
    (s : GameState) (a : Action) (cid : String) (card : CardInstance)
    (hcid : a.card_id = some cid)
    (htake : ((s.get_player a.player_id).hand.take_card cid).1 = some card)
    (hcard : card.card_id = "sv1-196")
    (hpid : a.player_id = s.active_player_index)
    (hsize : (s.get_player a.player_id).hand.cards.length ≤ 3) :
    (execute_ultra_ball
        (s.set_player a.player_id
          { s.get_player a.player_id with
            hand := ((s.get_player a.player_id).hand.take_card cid).2 }) card).1.success
      = false ∧
    apply_play_item ultra_ball_registry s a =
      s.set_player a.player_id
        { s.get_player a.player_id with
          hand := ((s.get_player a.player_id).hand.take_card cid).2
          discard := (s.get_player a.player_id).discard.add_card card } := by
  set player := s.get_player a.player_id with hplayer
  set r := player.hand.take_card cid with hr
  set s1 := s.set_player a.player_id { player with hand := r.2 } with hs1
  have hlen : r.2.cards.length + 1 = player.hand.cards.length := by
    have hx : (extractById player.hand.cards cid).1 = some card := htake
    have := extractById_length hx
    simpa [hr, Zone.take_card] using this
  have hidx : s1.active_player_index = s.active_player_index :=
    GameState.set_player_active_index _ _ _
  have hcp : can_play_ultra_ball s1 s1.active_player_index = false := by
    rw [can_play_ultra_ball, hidx, ← hpid, GameState.get_set_same]
    simp only [decide_eq_false_iff_not, not_le]
    omega
  have hres : execute_ultra_ball s1 card =
      ({ success := false,
         effect_description := "Need at least 2 other cards in hand to discard" }, s1) := by
    rw [execute_ultra_ball, hidx, ← hpid]
    rw [show s1.active_player_index = s.active_player_index from hidx] at hcp
    rw [← hpid] at hcp
    simp [hcp]
  have hb : ultra_ball_registry.has_trainer "sv1-196" = true := rfl
  have hiv : ultra_ball_registry.invoke_trainer "sv1-196" s1 card =
      execute_ultra_ball s1 card := rfl
  constructor
  · rw [hres]
  · rw [apply_play_item, hcid]
    simp only [← hr, htake]
    rw [hcard]
    simp only [hb, if_true, hiv, hres]
    simp only [List.foldl_nil]
    rw [hs1, GameState.modify_set_same]

/-- C3 witness: the amended theorem instantiated on the concrete two-card
hand. -/
theorem handler_failure_still_discards_card_witness :
    c3Action.card_id = some "ub1" ∧
    ((c3State.get_player c3Action.player_id).hand.take_card "ub1").1 = some c3UltraBall ∧
    c3UltraBall.card_id = "sv1-196" ∧
    c3Action.player_id = c3State.active_player_index ∧
    (c3State.get_player c3Action.player_id).hand.cards.length ≤ 3 ∧
    apply_play_item ultra_ball_registry c3State c3Action =
      c3State.set_player c3Action.player_id
        { c3State.get_player c3Action.player_id with
          hand := ((c3State.get_player c3Action.player_id).hand.take_card "ub1").2
          discard := (c3State.get_player c3Action.player_id).discard.add_card c3UltraBall } :=
  ⟨rfl, rfl, rfl, rfl, by decide,
    (handler_failure_still_discards_card c3State c3Action "ub1" c3UltraBall
      rfl rfl rfl rfl (by decide)).2⟩

/-- C8 counterexample: a filter whose only key is unrecognized matches —
both `PokemonEngine::card_matches_filter` and
`effects::card_matches_filter` return `true` for the key `bogus_key` —
refuting the claim that a filter containing an unrecognized key never
matches (fail closed). -/
theorem unknown_filter_key_matches_counterexample :
    "bogus_key" ∉ recognized_filter_keys ∧
    card_matches_filter c4Db (mkCard "x1" "poke-1") [("bogus_key", "x")] = true ∧
    effects_card_matches_filter c4PokeDef [("bogus_key", "x")] = true := by
  decide

/-- C8 amended: unrecognized filter keys are IGNORED (the filters fail
open, not closed): for a card with a definition, adding an entry with an
unrecognized key to a filter never changes the verdict of either filter
implementation. -/
theorem unknown_filter_keys_are_ignored
    (db : CardDatabase) (card : CardInstance) (d : CardDef)
    (filter : List (String × String)) (k v : String)
    (hdef : db.get_card card.card_id = some d)
    (hk : k ∉ recognized_filter_keys) :
    card_matches_filter db card ((k, v) :: filter) = card_matches_filter db card filter ∧
    effects_card_matches_filter d ((k, v) :: filter) = effects_card_matches_filter d filter := by
  have hks : k ≠ "supertype" ∧ k ≠ "subtype" ∧ k ≠ "pokemon_type" ∧ k ≠ "energy_type" ∧
      k ≠ "max_hp" ∧ k ≠ "name" ∧ k ≠ "evolves_from" ∧ k ≠ "is_basic" ∧
      k ≠ "is_basic_energy" ∧ k ≠ "rare_candy_target" ∧ k ≠ "super_rod_target" ∧
      k ≠ "night_stretcher_target" := by
    simpa [recognized_filter_keys] using hk
  obtain ⟨hk1, hk2, hk3, hk4, hk5, hk6, hk7, hk8, hk9, hk10, hk11, hk12⟩ := hks
  have hce : engine_filter_criterion d k v = true := by
    simp [engine_filter_criterion, hk1, hk2, hk3, hk4, hk5, hk6, hk7, hk8, hk10, hk11, hk12]
  have hcf : effects_filter_criterion d k v = true := by
    simp [effects_filter_criterion, hk1, hk2, hk3, hk5, hk6, hk7, hk9]
  constructor
  · cases filter with
    | nil => simp [card_matches_filter, hdef, hce]
    | cons p ps => simp [card_matches_filter, hdef, hce]
  · simp [effects_card_matches_filter, hcf]

/-- C8 witness: the amended theorem instantiated on a concrete card,
filter and unknown key. -/
theorem unknown_filter_keys_are_ignored_witness :
    c4Db.get_card (mkCard "x1" "poke-1").card_id = some c4PokeDef ∧
    "bogus_key" ∉ recognized_filter_keys ∧
    (card_matches_filter c4Db (mkCard "x1" "poke-1")
        (("bogus_key", "x") :: [("name", "Flareling")]) =
      card_matches_filter c4Db (mkCard "x1" "poke-1") [("name", "Flareling")] ∧
    effects_card_matches_filter c4PokeDef (("bogus_key", "x") :: [("name", "Flareling")]) =
      effects_card_matches_filter c4PokeDef [("name", "Flareling")]) :=
  ⟨rfl, by decide,
    unknown_filter_keys_are_ignored c4Db (mkCard "x1" "poke-1") c4PokeDef
      [("name", "Flareling")] "bogus_key" "x" rfl (by decide)⟩

/-- First deck card for claim C9 (the front of the deck vector). -/
def c9CardA : CardInstance := mkCard "a" "poke-1" 0

/-- Second deck card for claim C9 (the back of the deck vector). -/
def c9CardB : CardInstance := mkCard "b" "poke-1" 0

/-- A state whose player 0 has the two-card deck `[a, b]` and an empty
hand. -/
def c9State : GameState :=
  { player0 :=
      { player_id := 0
        deck := { cards := [c9CardA, c9CardB], is_hidden := true } } }

/-- C9 counterexample: on the same non-empty deck `[a, b]`, the
turn-start draw (`Zone::draw_top`) puts card `a` (index 0) in the hand
while `effects::draw_cards` with count 1 puts card `b` (the LAST vector
element) in the hand — the two card-drawing paths do not remove the same
card. -/
theorem draw_paths_remove_different_cards_counterexample :
    (c9State.get_player 0).deck.cards.isEmpty = false ∧
    ((start_turn c9State).get_player 0).hand.cards.map CardInstance.id = ["a"] ∧
    ((effects_draw_cards c9State 0 1).2.get_player 0).hand.cards.map CardInstance.id = ["b"] ∧
    ("a" : String) ≠ "b" := by
  decide

/-- C9 amended: the two drawing paths are NOT equivalent —
`Zone::draw_top` (used by the turn-start draw) removes the card at index
0 of the deck vector, while `effects::draw_cards` with count 1 removes
the last element; on a deck `pre ++ [x]` the former yields the head and
the latter moves `x`, so they agree only when the deck has exactly one
card. -/
theorem draw_top_takes_front_draw_cards_takes_back
    (s : GameState) (pid : Nat) (pre : List CardInstance) (x : CardInstance)
    (hdeck : (s.get_player pid).deck.cards = pre ++ [x]) :
    ((s.get_player pid).deck.draw_top).1 = (pre ++ [x]).head? ∧
    ((effects_draw_cards s pid 1).2.get_player pid).deck.cards = pre ∧
    ((effects_draw_cards s pid 1).2.get_player pid).hand.cards =
      (s.get_player pid).hand.cards ++ [x] := by
  have h1 : ((s.get_player pid).deck.draw_top).1 = (pre ++ [x]).head? := by
    rw [Zone.draw_top]
    rcases hcases : (s.get_player pid).deck.cards with _ | ⟨c, cs⟩
    · rw [hcases] at hdeck
      exact absurd hdeck.symm (List.append_ne_nil_of_right_ne_nil _ (by simp))
    · rw [hcases] at hdeck
      simp [← hdeck]
  have hmin : (min 1 ((s.get_player pid).deck.count)).toNat = 1 := by
    rw [Zone.count, hdeck]
    simp
  refine ⟨h1, ?_, ?_⟩ <;>
    simp [effects_draw_cards, hmin, hdeck, GameState.get_set_same,
      List.take_left, List.drop_left]

/-- C9 witness: the amended theorem instantiated on the concrete deck
`[a, b]`. -/
theorem draw_top_takes_front_draw_cards_takes_back_witness :
    (c9State.get_player 0).deck.cards = [c9CardA] ++ [c9CardB] ∧
    (((c9State.get_player 0).deck.draw_top).1 = ([c9CardA] ++ [c9CardB]).head? ∧
      ((effects_draw_cards c9State 0 1).2.get_player 0).deck.cards = [c9CardA] ∧
      ((effects_draw_cards c9State 0 1).2.get_player 0).hand.cards =
        (c9State.get_player 0).hand.cards ++ [c9CardB]) :=
  ⟨rfl, draw_top_takes_front_draw_cards_takes_back c9State 0 [c9CardA] c9CardB rfl⟩

/-- Active Pokemon for claim C6 with two attached energies: `e1` was
attached first (oldest, front of the list), `e2` last (newest, back). -/
def c6Active : CardInstance :=
  (mkCard "ac" "poke-1").set_attached_energy [mkCard "e1" "fire-en", mkCard "e2" "fire-en"]

/-- A Main-phase state with `c6Active` active and one benched Pokemon. -/
def c6State : GameState :=
  { player0 :=
      { player_id := 0
        board := { active_spot := some c6Active, bench := [mkCard "bn" "poke-1"] } }
    current_phase := .main }

/-- The `Retreat` action switching `c6Active` with the benched Pokemon. -/
def c6Action : Action := Action.retreat 0 "ac" "bn"

/-- C6: evaluating `apply_retreat` at the failing input.  The modified
retreat cost is 1 and exactly one energy is discarded, the active is
switched with the chosen bench Pokemon and the retreat flag is set — but
the discarded energy is `e2`, the NEWEST attachment (popped off the back
of the list), not the oldest-attached `e1` that the claim (and the
comment in the source, "just remove from front") prescribe. -/
theorem retreat_discards_newest_energy_first :
    c6Active.attached_energy.map CardInstance.id = ["e1", "e2"] ∧
    calculate_retreat_cost c4Db emptyRegistry c6State c6Active = 1 ∧
    ((apply_retreat c4Db emptyRegistry c6State c6Action).get_player 0).discard.cards.map
      CardInstance.id = ["e2"] ∧
    ((apply_retreat c4Db emptyRegistry c6State c6Action).get_player 0).board.active_spot.map
      CardInstance.id = some "bn" ∧
    ((apply_retreat c4Db emptyRegistry c6State c6Action).get_player 0).board.bench.map
      (fun c => c.attached_energy.map CardInstance.id) = [["e1"]] ∧
    ((apply_retreat c4Db emptyRegistry c6State c6Action).get_player 0).retreated_this_turn
      = true := by
  decide

/-- A bench-destination deck search for claim C2 with two cards already
selected once `d2` is picked, sitting on a board whose bench has only
one free slot. -/
def c2SearchStep : SearchDeckStep :=
  { player_id := 0, count := 2, min_count := 0, destination := .bench,
    selected_card_ids := ["d1"], shuffle_after := false }

/-- The C2 state: four benched Pokemon (one slot free of the maximum
five), two deck cards, and the pending search step. -/
def c2State : GameState :=
  { player0 :=
      { player_id := 0
        deck := { cards := [mkCard "d1" "poke-1", mkCard "d2" "poke-1"], is_hidden := true }
        board :=
          { active_spot := some (mkCard "a0" "poke-1")
            bench := [mkCard "b1" "poke-1", mkCard "b2" "poke-1",
                      mkCard "b3" "poke-1", mkCard "b4" "poke-1"] } }
    player1 :=
      { player_id := 1
        board := { active_spot := some (mkCard "a1x" "poke-1") } }
    current_phase := .main
    resolution_stack := [.searchDeck c2SearchStep] }

/-- Selecting the second searched card, which auto-completes the step. -/
def c2Action : Action := Action.select_card 0 "d2"

/-- A state holding one energy card in hand, for the attach-energy
branch of claim C2. -/
def c2AttachState : GameState :=
  { player0 :=
      { player_id := 0
        hand := { cards := [mkCard "en1" "fire-en"], is_ordered := false, is_private := true }
        board := { active_spot := some (mkCard "a0" "poke-1") } } }

/-- An `AttachEnergy` action whose target id is not any Pokemon in
play. -/
def c2AttachAction : Action := Action.attach_energy 0 "en1" "ghost"

/-- C2: evaluating the engine at the failing inputs.  Completing a
bench-destination `SearchDeck` step when the bench fills up mid-move
destroys the over-flowing selected card: `d2` is in the instance-id
multiset before the step and in NO zone afterwards (the multiset
shrinks by one).  Likewise `apply_attach_energy` with a target id not in
play removes the energy from the hand and drops it.  Both violate the
claimed card-conservation invariant. -/
theorem search_deck_and_attach_energy_can_destroy_cards :
    "d2" ∈ c2State.all_card_ids ∧
    "d2" ∉ (step modelShuffle c4Db emptyRegistry 0 c2State c2Action).1.all_card_ids ∧
    (step modelShuffle c4Db emptyRegistry 0 c2State c2Action).1.all_card_ids.length + 1 =
      c2State.all_card_ids.length ∧
    "en1" ∈ c2AttachState.all_card_ids ∧
    "en1" ∉ (apply_attach_energy c2AttachState c2AttachAction).all_card_ids ∧
    (apply_attach_energy c2AttachState c2AttachAction).all_card_ids.length + 1 =
      c2AttachState.all_card_ids.length := by
  decide

/-- A deck search with nothing selected whose completion shuffles the
deck (claim C1). -/
def c1SearchStep : SearchDeckStep :=
  { player_id := 0, count := 3, min_count := 0, destination := .hand,
    selected_card_ids := [], shuffle_after := true }

/-- The C1 state: a three-card deck, the pending search step, and a
fixed state-owned RNG value. -/
def c1State : GameState :=
  { player0 :=
      { player_id := 0
        deck := { cards := [mkCard "d1" "poke-1", mkCard "d2" "poke-1",
                            mkCard "d3" "poke-1"], is_hidden := true }
        board := { active_spot := some (mkCard "a0" "poke-1") } }
    player1 :=
      { player_id := 1
        board := { active_spot := some (mkCard "a1x" "poke-1") } }
    current_phase := .main
    rng := 7
    resolution_stack := [.searchDeck c1SearchStep] }

/-- Confirming the (empty) selection, which completes the search step
and triggers the shuffle. -/
def c1Action : Action := Action.confirm_selection 0

/-- C1: evaluating two consecutive `step` calls on the SAME state (equal
contents, equal state-owned RNG 7) with the SAME action, threading the
ENGINE's own generator between the calls the way the C++ engine's
mutable `rng_` member persists across calls.  The resulting deck orders
differ, and the engine generator advanced while the state's own `rng`
field was never consulted or changed — the shuffle's randomness comes
from outside the game state. -/
theorem engine_owned_rng_breaks_step_determinism :
    ((step modelShuffle c4Db emptyRegistry 1 c1State c1Action).1.get_player 0).deck.cards.map
      CardInstance.id = ["d2", "d3", "d1"] ∧
    ((step modelShuffle c4Db emptyRegistry
        (step modelShuffle c4Db emptyRegistry 1 c1State c1Action).2
        c1State c1Action).1.get_player 0).deck.cards.map CardInstance.id =
      ["d1", "d2", "d3"] ∧
    (step modelShuffle c4Db emptyRegistry 1 c1State c1Action).2 ≠ 1 ∧
    (step modelShuffle c4Db emptyRegistry 1 c1State c1Action).1.rng = c1State.rng := by
  decide

end PokemonTCG
